import Mathlib

/-!
Verification of the Resume-Analyser analysis pipeline.

This file gives a shallow embedding, in Lean 4, of the core analysis
pipeline of the Resume-Analyser repository: skill extraction
(skill_extractor.py), ATS scoring (ats_analyzer.py), role matching
(role_matcher.py), job-description matching (jd_matcher.py) and the
orchestration service (analysis_service.py).  Resume and JD text is
modelled as `List Char`; Python floats are modelled as exact rationals
(`ℚ`); Python sets of strings as `Finset String`; Python `round(x, 2)`
as exact banker's rounding on `ℚ`.  Human-readable suggestion / insight
strings emitted by the analyzers are modelled as tagged constructors
carrying the data interpolated into the message, so that counting and
membership claims about them are exact.
-/

namespace ResumeAnalyser

/-! ### Text helpers -/

/-- A regex word character (`\w`, ASCII): letter, digit or underscore. -/
def isWordChar (c : Char) : Bool := c.isAlphanum || c = '_'

/-- A Python whitespace character (`\s`, ASCII). -/
def isSpaceChar (c : Char) : Bool :=
  c = ' ' || c = '\t' || c = '\n' || c = '\r' || c = '\x0b' || c = '\x0c'

/-- Auxiliary accumulator for `splitWs`. -/
def splitWsAux : List Char → List Char → List (List Char)
  | [], acc => if acc.isEmpty then [] else [acc.reverse]
  | c :: cs, acc =>
    if isSpaceChar c then
      if acc.isEmpty then splitWsAux cs [] else acc.reverse :: splitWsAux cs []
    else splitWsAux cs (c :: acc)

/-- Python `str.split()`: split on runs of whitespace, dropping empty pieces. -/
def splitWs (t : List Char) : List (List Char) := splitWsAux t []

/-- Python `str.strip()`: remove leading and trailing whitespace. -/
def stripChars (t : List Char) : List Char :=
  ((t.dropWhile isSpaceChar).reverse.dropWhile isSpaceChar).reverse

/-- Python `str.lower()` (ASCII case folding). -/
def toLowerChars (t : List Char) : List Char := t.map Char.toLower

/-- Python `str.lower()` on a string value (defined through
`toLowerChars` so that it reduces in the kernel). -/
def strLower (s : String) : String := String.mk (toLowerChars s.data)

/-- Python `needle in hay` on strings: substring containment. -/
def containsSub (hay needle : List Char) : Bool :=
  (List.range (hay.length + 1)).any fun i => needle.isPrefixOf (hay.drop i)

/-- The slice `t[i:j]` of a character list. -/
def slice (t : List Char) (i j : Nat) : List Char := (t.drop i).take (j - i)

/-- Character of `t` at position `i`, if in range. -/
def charAt? (t : List Char) (i : Nat) : Option Char := t.get? i

/-- Whether position `i` of `t` holds a regex word character
(out-of-range counts as a non-word character). -/
def wordAt (t : List Char) (i : Nat) : Bool :=
  match t.get? i with
  | some c => isWordChar c
  | none => false

/-- Regex `\b` (word boundary) holds at position `i` of `t`: the
word-character status changes between positions `i - 1` and `i`. -/
def boundaryAt (t : List Char) (i : Nat) : Bool :=
  (if i = 0 then false else wordAt t (i - 1)) != wordAt t i

/-- Auxiliary fuelled scanner for `finditer`: at each position try
`matchLen`; on a match of length `L` record it and resume at `i + max L 1`
(Python `re.finditer` semantics: leftmost, non-overlapping). -/
def finditerAux (matchLen : Nat → Option Nat) (n : Nat) :
    Nat → Nat → List (Nat × Nat)
  | 0, _ => []
  | fuel + 1, i =>
    if i > n then []
    else
      match matchLen i with
      | some L => (i, L) :: finditerAux matchLen n fuel (i + max L 1)
      | none => finditerAux matchLen n fuel (i + 1)

/-- All non-overlapping matches (position, length) of a pattern, given a
per-position matcher, over a text of length `n`. -/
def finditer (matchLen : Nat → Option Nat) (n : Nat) : List (Nat × Nat) :=
  finditerAux matchLen n (n + 2) 0

/-- Maximal run of characters satisfying `p` starting at position `i`. -/
def runLen (t : List Char) (p : Char → Bool) (i : Nat) : Nat :=
  ((t.drop i).takeWhile p).length

/-- Case-insensitive literal match of `lit` at position `i` of `t`
(the text is compared after ASCII lower-casing). -/
def litAtCI (t : List Char) (lit : List Char) (i : Nat) : Bool :=
  toLowerChars lit = toLowerChars (slice t i (i + lit.length)) &&
    i + lit.length ≤ t.length

/-- Exact literal match of `lit` at position `i` of `t`. -/
def litAt (t : List Char) (lit : List Char) (i : Nat) : Bool :=
  lit = slice t i (i + lit.length) && i + lit.length ≤ t.length

/-! ### Python rounding

`round(x, 2)` in Python 3 rounds half to even ("banker's rounding").
We model it exactly on rationals. -/

/-- Python 3 `round()` to an integer: round half to even. -/
def bankRound (q : ℚ) : ℤ :=
  if q - ⌊q⌋ < 1 / 2 then ⌊q⌋
  else if 1 / 2 < q - ⌊q⌋ then ⌊q⌋ + 1
  else if ⌊q⌋ % 2 = 0 then ⌊q⌋ else ⌊q⌋ + 1

/-- Python `round(x, 2)`: banker's rounding to two decimal places. -/
def round2 (q : ℚ) : ℚ := (bankRound (q * 100) : ℚ) / 100

/-! ### Reference catalog (data/job_database.py)

The synonym table is transcribed in full from `SKILL_SYNONYMS`.  The
role catalog `JOB_DATABASE` is reference data (56 fixed roles); the role
matcher below is parametrised by the role list, exactly as the
`RoleMatcher` class is parametrised by `self.roles`. -/

/-- `SKILL_SYNONYMS`: canonical skill name to known variant spellings. -/
def SKILL_SYNONYMS : List (String × List String) :=
  [("python", ["python3", "py", "python programming"]),
   ("javascript", ["js", "javascript programming", "ecmascript"]),
   ("machine learning", ["ml", "statistical learning", "predictive modeling"]),
   ("deep learning", ["dl", "neural networks", "artificial neural networks"]),
   ("natural language processing", ["nlp", "text analytics", "text mining"]),
   ("computer vision", ["cv", "image processing", "visual recognition"]),
   ("sql", ["structured query language", "tsql", "plsql", "mysql", "postgresql"]),
   ("aws", ["amazon web services", "amazon aws"]),
   ("azure", ["microsoft azure", "azure cloud"]),
   ("gcp", ["google cloud platform", "google cloud"]),
   ("docker", ["containerization", "containers"]),
   ("kubernetes", ["k8s", "container orchestration"]),
   ("ci/cd", ["continuous integration", "continuous deployment", "cicd"]),
   ("agile", ["scrum", "agile methodology", "agile development"]),
   ("git", ["version control", "source control", "github", "gitlab"]),
   ("react", ["reactjs", "react.js"]),
   ("node.js", ["nodejs", "node"]),
   ("api", ["rest api", "restful api", "web service"]),
   ("tableau", ["tableau desktop", "tableau server"]),
   ("power bi", ["powerbi", "microsoft power bi"]),
   ("excel", ["microsoft excel", "ms excel", "spreadsheet"])]

/-- Python `skill in SKILL_SYNONYMS` / `SKILL_SYNONYMS[skill]`:
look up the variant list of a canonical skill. -/
def synonymsOf? (s : String) : Option (List String) :=
  (SKILL_SYNONYMS.find? fun p => p.1 = s).map Prod.snd

/-- One entry of `JOB_DATABASE`: a catalog role record. -/
structure RoleData where
  category : String
  skills : List String
  tools : List String
  soft_skills : List String
  certifications : List String
  keywords : List String
deriving DecidableEq, Repr

/-- A `SkillMention`: occurrence count, up to three context snippets, and
a confidence value (skill_extractor.py `found_skills` entries). -/
structure SkillMention where
  count : Nat
  contexts : List (List Char)
  confidence : ℚ
deriving DecidableEq, Repr

/-- One extracted education record `{degree, major}`. -/
structure EducationRec where
  degree : List Char
  major : List Char
deriving DecidableEq, Repr

/-! ### Role matcher (role_matcher.py) -/

/-- Second test of `_match_with_synonyms`: some listed synonym of the
required skill is present in the extracted set. -/
def req_synonym_present (extracted : Finset String) (req : String) : Bool :=
  match synonymsOf? req with
  | some syns => (syns.map strLower).any fun s => decide (s ∈ extracted)
  | none => false

/-- Third test of `_match_with_synonyms`: the required skill is itself a
listed synonym of the extracted skill `ext`. -/
def req_listed_under (ext req : String) : Bool :=
  match synonymsOf? ext with
  | some syns => (syns.map strLower).contains req
  | none => false

/-- The three-way test of `_match_with_synonyms` for one required
skill: present directly, or one of its listed synonyms is present, or it
is itself a listed synonym of a present skill. -/
def synonym_hit (extracted : Finset String) (req : String) : Bool :=
  decide (req ∈ extracted) || req_synonym_present extracted req ||
    decide (∃ ext ∈ extracted, req_listed_under ext req = true)

/-- `RoleMatcher._match_with_synonyms`: the matched set is the subset of
`required` passing the three-way synonym test. -/
def match_with_synonyms (required extracted : Finset String) : Finset String :=
  required.filter fun req => synonym_hit extracted req = true

/-- `RoleMatcher._calculate_coverage_score`. -/
def calculate_coverage_score (matched required : Finset String) : ℚ :=
  if required = ∅ then 1
  else
    if matched.card > required.card then
      min 1 ((matched.card : ℚ) / required.card +
        min 0.1 (((matched.card : ℚ) - required.card) * 0.02))
    else (matched.card : ℚ) / required.card

/-- `RoleMatcher._match_certifications`. -/
def match_certifications (user_certs : List String) (preferred : Finset String) : ℚ :=
  if preferred = ∅ then 50
  else
    let user_lower := user_certs.map strLower
    let hits := (preferred.filter fun pref =>
      (user_lower.any fun u => containsSub u.data pref.data) = true).card
    if hits = 0 then 0 else min 100 ((hits : ℚ) / preferred.card * 100)

/-- `RoleMatcher._calculate_confidence`. -/
def calculate_confidence (skill_score tool_score : ℚ)
    (skills_count tools_count : Nat) : String :=
  let avg := (skill_score + tool_score) / 2
  let total := skills_count + tools_count
  if avg ≥ 80 ∧ total ≥ 8 then "Very High"
  else if avg ≥ 60 ∧ total ≥ 5 then "High"
  else if avg ≥ 40 ∧ total ≥ 3 then "Medium"
  else if avg ≥ 20 then "Low"
  else "Very Low"

/-- `RoleMatcher._identify_critical_skills`. -/
def identify_critical_skills (missing : Finset String) (keywords : List String) : Finset String :=
  missing.filter fun skill =>
    ((keywords.map strLower).any fun k =>
      containsSub skill.data k.data || containsSub k.data skill.data) = true

/-- Per-factor breakdown of a role match (each 0 to 100). -/
structure Breakdown where
  technical_skills : ℚ
  tools : ℚ
  soft_skills : ℚ
  certifications : ℚ
  experience : ℚ
deriving DecidableEq, Repr

/-- One `RoleMatch` record, as returned by `_calculate_match` (the
`"x/y"` match-count strings are modelled as numerator/denominator
pairs). -/
structure RoleMatch where
  role : String
  category : String
  overall_score : ℚ
  confidence : String
  breakdown : Breakdown
  matched_technical : List String
  matched_tools : List String
  matched_soft_skills : List String
  missing_critical : List String
  missing_all : List String
  count_technical : Nat × Nat
  count_tools : Nat × Nat
  count_total : Nat × Nat
deriving DecidableEq, Repr

/-- `RoleMatcher._calculate_match`.  The `skill_details` and `education`
arguments are accepted, as in the source, but unused by the body. -/
def calculate_match (role_name : String) (role_data : RoleData)
    (extracted_skills : List String)
    (skill_details : List (String × SkillMention))
    (experience_years : Nat) (certifications : List String)
    (education : List EducationRec) : RoleMatch :=
  let required_skills := (role_data.skills.map strLower).toFinset
  let required_tools := (role_data.tools.map strLower).toFinset
  let required_soft := (role_data.soft_skills.map strLower).toFinset
  let preferred_certs := (role_data.certifications.map strLower).toFinset
  let extracted_set := (extracted_skills.map strLower).toFinset
  let skills_matched := match_with_synonyms required_skills extracted_set
  let tools_matched := match_with_synonyms required_tools extracted_set
  let soft_matched := match_with_synonyms required_soft extracted_set
  let skill_score := calculate_coverage_score skills_matched required_skills * 100
  let tool_score := calculate_coverage_score tools_matched required_tools * 100
  let soft_score := calculate_coverage_score soft_matched required_soft * 100
  let cert_score := match_certifications certifications preferred_certs
  let experience_score := min ((experience_years : ℚ) * 10) 100
  let overall := skill_score * 0.40 + tool_score * 0.25 + soft_score * 0.15 +
    cert_score * 0.10 + experience_score * 0.10
  let all_required := required_skills ∪ required_tools
  let all_matched := skills_matched ∪ tools_matched
  let missing := all_required \ all_matched
  let critical := identify_critical_skills missing role_data.keywords
  { role := role_name
    category := role_data.category
    overall_score := round2 overall
    confidence := calculate_confidence skill_score tool_score
      skills_matched.card tools_matched.card
    breakdown :=
      { technical_skills := round2 skill_score
        tools := round2 tool_score
        soft_skills := round2 soft_score
        certifications := round2 cert_score
        experience := round2 experience_score }
    matched_technical := skills_matched.sort (· ≤ ·)
    matched_tools := tools_matched.sort (· ≤ ·)
    matched_soft_skills := soft_matched.sort (· ≤ ·)
    missing_critical := (critical.sort (· ≤ ·)).take 5
    missing_all := (missing.sort (· ≤ ·)).take 10
    count_technical := (skills_matched.card, required_skills.card)
    count_tools := (tools_matched.card, required_tools.card)
    count_total := (all_matched.card, all_required.card) }

/-- `RoleMatcher.match_roles`: one `RoleMatch` per catalog role, sorted by
descending overall score (Python `list.sort(key=..., reverse=True)` is a
stable descending sort, modelled by a stable merge sort). -/
def match_roles (roles : List (String × RoleData)) (extracted_skills : List String)
    (skill_details : List (String × SkillMention)) (experience_years : Nat)
    (certifications : List String) (education : List EducationRec) : List RoleMatch :=
  let results := roles.map fun p =>
    calculate_match p.1 p.2 extracted_skills skill_details experience_years
      certifications education
  List.insertionSort (fun a b => b.overall_score ≤ a.overall_score) results

/-! ### Skill extractor (skill_extractor.py) -/

/-- Matcher for the compiled pattern `\b<literal>\b` at position `i`. -/
def wb_lit_matchLen (t lit : List Char) (i : Nat) : Option Nat :=
  if litAt t lit i && boundaryAt t i && boundaryAt t (i + lit.length) then
    some lit.length
  else none

/-- All non-overlapping whole-word occurrences of `lit` in `t`. -/
def find_word_matches (t lit : List Char) : List (Nat × Nat) :=
  finditer (wb_lit_matchLen t lit) t.length

/-- `SkillExtractor._build_skill_database`: the lower-cased universe of
known skills (role skills, tools and soft skills, plus every synonym-table
key and variant), as a duplicate-free list. -/
def build_skill_database (db : List (String × RoleData)) : List String :=
  ((db.flatMap fun p =>
      (p.2.skills ++ p.2.tools ++ p.2.soft_skills).map strLower) ++
    SKILL_SYNONYMS.flatMap fun p => strLower p.1 :: p.2.map strLower).dedup

/-- `SkillExtractor._build_skill_patterns` ordering: skills sorted by
length, longest first (so multi-word skills are matched first). -/
def sort_skills_by_length (all_skills : List String) : List String :=
  List.insertionSort (fun a b => b.length ≤ a.length) all_skills

/-- `SkillExtractor._normalize_skill`: resolve a surface form to its
canonical name via the synonym table (first matching entry wins). -/
def normalize_skill (skill : String) : String :=
  let sl := strLower skill
  match SKILL_SYNONYMS.find? fun p =>
      p.1 == sl || (p.2.map strLower).contains sl with
  | some p => p.1
  | none => sl

/-- A skill entry while matches are being accumulated (count and the
up-to-three stored context snippets, before confidence is assigned). -/
structure RawMention where
  count : Nat
  contexts : List (List Char)
deriving DecidableEq, Repr

/-- Record one match of a (normalized) skill with its context snippet:
bump the count and store the context if fewer than 3 are stored,
preserving first-seen insertion order of skills. -/
def record_mention : List (String × RawMention) → String → List Char →
    List (String × RawMention)
  | [], skill, ctx => [(skill, ⟨1, [ctx]⟩)]
  | (k, v) :: rest, skill, ctx =>
    if k = skill then
      (k, ⟨v.count + 1,
           if v.contexts.length < 3 then v.contexts ++ [ctx] else v.contexts⟩)
        :: rest
    else (k, v) :: record_mention rest skill ctx

/-- The context window of a match at `(i, L)`: 50 characters of the
original text on each side, stripped. -/
def context_window (text : List Char) (i L : Nat) : List Char :=
  stripChars (slice text (i - 50) (i + L + 50))

/-- The `(normalized skill, context)` events produced by scanning the
text with every skill pattern, in pattern order. -/
def mention_events (all_skills : List String) (text : List Char) :
    List (String × List Char) :=
  let text_lower := toLowerChars text
  (sort_skills_by_length all_skills).flatMap fun skill =>
    (find_word_matches text_lower (toLowerChars skill.data)).map fun m =>
      (normalize_skill skill, context_window text m.1 m.2)

/-- The four section keywords whose presence in a stored context grants
the +0.3 confidence boost. -/
def section_keywords_boost : List String :=
  ["skills", "technologies", "tools", "expertise"]

/-- Confidence assignment of `extract_skills`:
`min(count * 0.2, 1.0)` plus a single `+0.3` boost when any stored
context mentions a skills-section keyword, capped at `1.0`. -/
def confidence_of (count : Nat) (contexts : List (List Char)) : ℚ :=
  let base := min ((count : ℚ) * 0.2) 1
  let boost : ℚ :=
    if contexts.any (fun ctx =>
        section_keywords_boost.any fun w =>
          containsSub (toLowerChars ctx) w.data) then 0.3
    else 0
  min (base + boost) 1

/-- Result record of `SkillExtractor.extract_skills`. -/
structure SkillAnalysis where
  skills : List (String × SkillMention)
  skill_list : List String
  total_unique_skills : Nat
  high_confidence_skills : List String
deriving DecidableEq, Repr

/-- Descending `(confidence, count)` comparison used to sort the final
skill mapping (Python `sorted(..., key=(confidence, count), reverse=True)`). -/
def skill_order (a b : String × SkillMention) : Prop :=
  b.2.confidence < a.2.confidence ∨
    (b.2.confidence = a.2.confidence ∧ b.2.count ≤ a.2.count)

instance : DecidableRel skill_order := fun a b => by
  unfold skill_order
  infer_instance

instance : IsTotal (String × SkillMention) skill_order :=
  ⟨fun a b => by
    unfold skill_order
    rcases lt_trichotomy b.2.confidence a.2.confidence with h | h | h
    · exact Or.inl (Or.inl h)
    · rcases Nat.le_total b.2.count a.2.count with hc | hc
      · exact Or.inl (Or.inr ⟨h, hc⟩)
      · exact Or.inr (Or.inr ⟨h.symm, hc⟩)
    · exact Or.inr (Or.inl h)⟩

instance : IsTrans (String × SkillMention) skill_order :=
  ⟨fun a b c hab hbc => by
    unfold skill_order at hab hbc ⊢
    rcases hab with h1 | ⟨h1, h1c⟩ <;> rcases hbc with h2 | ⟨h2, h2c⟩
    · exact Or.inl (lt_trans h2 h1)
    · exact Or.inl (by rw [h2]; exact h1)
    · exact Or.inl (by rw [← h1]; exact h2)
    · exact Or.inr ⟨h2.trans h1, le_trans h2c h1c⟩⟩

/-- Accumulation phase of `extract_skills`: fold every mention event
into the `found_skills` association list. -/
def found_mentions (all_skills : List String) (text : List Char) :
    List (String × RawMention) :=
  (mention_events all_skills text).foldl (fun m e => record_mention m e.1 e.2) []

/-- Confidence-assignment phase of `extract_skills`. -/
def with_confidence (found : List (String × RawMention)) :
    List (String × SkillMention) :=
  found.map fun e =>
    (e.1, ⟨e.2.count, e.2.contexts, confidence_of e.2.count e.2.contexts⟩)

/-- `SkillExtractor.extract_skills`: scan the text with every skill
pattern (longest skill first), accumulate counts and up to 3 context
snippets per canonical skill, assign confidences, and sort by descending
(confidence, count). -/
def extract_skills (all_skills : List String) (text : List Char) : SkillAnalysis :=
  let sorted := List.insertionSort skill_order
    (with_confidence (found_mentions all_skills text))
  { skills := sorted
    skill_list := sorted.map Prod.fst
    total_unique_skills := sorted.length
    high_confidence_skills :=
      (sorted.filter fun e => decide (e.2.confidence > 0.7)).map Prod.fst }

/-- The fixed action-verb vocabulary of `extract_action_verbs`. -/
def action_verb_vocabulary : List String :=
  ["built", "developed", "designed", "implemented", "optimized", "analyzed",
   "created", "automated", "deployed", "improved", "engineered", "trained",
   "led", "managed", "coordinated", "established", "launched", "delivered",
   "architected", "scaled", "maintained", "integrated", "migrated", "streamlined",
   "reduced", "increased", "achieved", "collaborated", "spearheaded", "pioneered"]

/-- One `{verb, count}` usage record. -/
structure VerbUsage where
  verb : String
  count : Nat
deriving DecidableEq, Repr

/-- `SkillExtractor.extract_action_verbs`: count whole-word occurrences
of each vocabulary verb, keep those with positive count, sort by
descending count. -/
def extract_action_verbs (text : List Char) : List VerbUsage :=
  let text_lower := toLowerChars text
  let usage := action_verb_vocabulary.filterMap fun v =>
    let c := (find_word_matches text_lower v.data).length
    if c > 0 then some ⟨v, c⟩ else none
  List.insertionSort (fun a b => b.count ≤ a.count) usage

/-! ### ATS analyzer (ats_analyzer.py)

Suggestion messages are modelled as tagged constructors carrying the
interpolated data. -/

/-- The suggestion messages the six ATS sub-scorers can emit, in tagged
form. -/
inductive Suggestion where
  | addRequiredSection (sectionName : String)
  | addRecommendedSection (sectionName : String)
  | addMoreTechnicalSkills
  | increaseKeywordDensity
  | addNMoreSkills (n : Nat)
  | useDiverseActionVerbs
  | startBulletsWithVerbs
  | replaceWeakPhrase (phrase : String)
  | exampleStrongVerbs
  | addQuantifiableMetrics
  | addNumbersExamples
  | includePercentageImprovements
  | metricZeroExample
  | resumeTooShort
  | considerCondensing
  | useBulletPoints
  | includeEmail
  | includePhone
  | addLinkedin
  | addGithubPortfolio
deriving DecidableEq, Repr

/-- Section presence map produced by `detect_sections` (all 8 fixed
section names; `dict.get(name, False)` is total on it). -/
structure SectionsFound where
  contact : Bool
  summary : Bool
  experience : Bool
  education : Bool
  skills : Bool
  projects : Bool
  certifications : Bool
  awards : Bool
deriving DecidableEq, Repr

/-- `sections.get(name, False)`. -/
def SectionsFound.get (s : SectionsFound) (name : String) : Bool :=
  if name = "contact" then s.contact
  else if name = "summary" then s.summary
  else if name = "experience" then s.experience
  else if name = "education" then s.education
  else if name = "skills" then s.skills
  else if name = "projects" then s.projects
  else if name = "certifications" then s.certifications
  else if name = "awards" then s.awards
  else false

/-- The required sections of `_score_sections`. -/
def required_sections : List String := ["experience", "education", "skills"]

/-- The recommended sections of `_score_sections`. -/
def recommended_sections : List String := ["summary", "projects", "certifications"]

/-- `ATSAnalyzer._score_sections` (max 25 points). -/
def score_sections (sections : SectionsFound) : ℚ × List Suggestion :=
  let required_present := (required_sections.filter fun s => sections.get s).length
  let recommended_present := (recommended_sections.filter fun s => sections.get s).length
  let score : ℚ := ((required_present : ℚ) / required_sections.length) * 15 +
    ((recommended_present : ℚ) / recommended_sections.length) * 10
  let suggestions :=
    ((required_sections.filter fun s => !sections.get s).map
      Suggestion.addRequiredSection) ++
    ((recommended_sections.filter fun s => !sections.get s).map
      Suggestion.addRecommendedSection)
  (score, suggestions)

/-- `ATSAnalyzer._score_keywords` (max 20 points). -/
def score_keywords (text : List Char) (skills : List String) : ℚ × List Suggestion :=
  let skill_count := skills.length
  let s1 : ℚ × List Suggestion :=
    if skill_count ≥ 15 then (10, [])
    else if skill_count ≥ 10 then (7, [])
    else if skill_count ≥ 5 then (4, [])
    else (0, [Suggestion.addMoreTechnicalSkills])
  let word_count := (splitWs text).length
  let s2 : ℚ × List Suggestion :=
    if word_count > 0 then
      let keyword_density : ℚ := ((skill_count : ℚ) * 3) / word_count
      if keyword_density ≥ 0.05 then (10, [])
      else if keyword_density ≥ 0.03 then (7, [])
      else if keyword_density ≥ 0.01 then (4, [])
      else (0, [Suggestion.increaseKeywordDensity])
    else (0, [])
  let s3 : List Suggestion :=
    if skill_count < 8 then [Suggestion.addNMoreSkills (8 - skill_count)] else []
  (s1.1 + s2.1, s1.2 ++ s2.2 ++ s3)

/-- The weak phrases scanned by `_score_action_verbs`. -/
def weak_phrases : List String := ["responsible for", "duties include", "tasks include"]

/-- `ATSAnalyzer._score_action_verbs` (max 15 points). -/
def score_action_verbs (text : List Char) (action_verbs : List VerbUsage) :
    ℚ × List Suggestion :=
  let text_lower := toLowerChars text
  let unique_verbs := action_verbs.length
  let total_verb_usage := (action_verbs.map VerbUsage.count).sum
  let s1 : ℚ × List Suggestion :=
    if unique_verbs ≥ 10 then (7, [])
    else if unique_verbs ≥ 6 then (5, [])
    else if unique_verbs ≥ 3 then (3, [])
    else (0, [Suggestion.useDiverseActionVerbs])
  let s2 : ℚ × List Suggestion :=
    if total_verb_usage ≥ 15 then (8, [])
    else if total_verb_usage ≥ 10 then (5, [])
    else if total_verb_usage ≥ 5 then (3, [])
    else (0, [Suggestion.startBulletsWithVerbs])
  let weak := (weak_phrases.filter fun p => containsSub text_lower p.data).map
    Suggestion.replaceWeakPhrase
  let s3 : List Suggestion :=
    if unique_verbs < 8 then [Suggestion.exampleStrongVerbs] else []
  (s1.1 + s2.1, s1.2 ++ s2.2 ++ weak ++ s3)

/-- One `{metric, context}` record of `extract_metrics`. -/
structure MetricRec where
  metric : List Char
  context : List Char
deriving DecidableEq, Repr

/-- Regex `\d{2,}` search: some two consecutive digits occur. -/
def has_two_digit_run (t : List Char) : Bool :=
  (t.zip (t.drop 1)).any fun p => p.1.isDigit && p.2.isDigit

/-- `ATSAnalyzer._score_metrics` (max 20 points). -/
def score_metrics (metrics : List MetricRec) : ℚ × List Suggestion :=
  let metric_count := metrics.length
  let s1 : ℚ × List Suggestion :=
    if metric_count ≥ 8 then (15, [])
    else if metric_count ≥ 5 then (10, [])
    else if metric_count ≥ 3 then (6, [])
    else if metric_count ≥ 1 then (3, [])
    else (0, [Suggestion.addQuantifiableMetrics])
  let has_percentages := metrics.any fun m => m.metric.contains '%'
  let has_numbers := metrics.any fun m => has_two_digit_run m.metric
  let has_currency := metrics.any fun m => m.metric.contains '$'
  let quality_count : Nat :=
    (if has_percentages then 1 else 0) + (if has_numbers then 1 else 0) +
      (if has_currency then 1 else 0)
  let score := s1.1 + ((quality_count : ℚ) / 3) * 5
  let s2 : List Suggestion :=
    (if metric_count < 5 then [Suggestion.addNumbersExamples] else []) ++
    (if !has_percentages then [Suggestion.includePercentageImprovements] else []) ++
    (if metric_count = 0 then [Suggestion.metricZeroExample] else [])
  (score, s1.2 ++ s2)

/-- The bullet-style characters searched for by `_score_formatting`. -/
def bullet_chars : List Char := ['•', '-', '►', '→', '*']

/-- `ATSAnalyzer._score_formatting` (max 10 points). -/
def score_formatting (text : List Char) : ℚ × List Suggestion :=
  let word_count := (splitWs text).length
  let s1 : ℚ × List Suggestion :=
    if 400 ≤ word_count ∧ word_count ≤ 1000 then (5, [])
    else if 300 ≤ word_count ∧ word_count ≤ 1200 then (3, [])
    else if word_count < 300 then (0, [Suggestion.resumeTooShort])
    else (0, [Suggestion.considerCondensing])
  let has_bullets := bullet_chars.any fun c => text.contains c
  let s2 : ℚ × List Suggestion :=
    if has_bullets then (5, []) else (0, [Suggestion.useBulletPoints])
  (s1.1 + s2.1, s1.2 ++ s2.2)

/-- Character class `[A-Za-z0-9._%+-]` (email local part). -/
def emailLocalChar (c : Char) : Bool :=
  c.isAlphanum || c = '.' || c = '_' || c = '%' || c = '+' || c = '-'

/-- Character class `[A-Za-z0-9.-]` (email domain part). -/
def emailDomChar (c : Char) : Bool := c.isAlphanum || c = '.' || c = '-'

/-- Character class `[A-Z|a-z]` (email TLD part; the class contains a
literal `|`). -/
def emailTldChar (c : Char) : Bool := c.isAlpha || c = '|'

/-- `re.search` of the email pattern
`\b[A-Za-z0-9._%+-]+@[A-Za-z0-9.-]+\.[A-Z|a-z]{2,}\b`. -/
def has_email (t : List Char) : Bool :=
  let n := t.length
  (List.range (n + 1)).any fun i =>
    let L1 := runLen t emailLocalChar i
    boundaryAt t i && decide (1 ≤ L1) && (charAt? t (i + L1) == some '@') &&
      (let d := i + L1 + 1
       let L2 := runLen t emailDomChar d
       (List.range (L2 + 1)).any fun o =>
         decide (1 ≤ o) && (charAt? t (d + o) == some '.') &&
           (let u := d + o + 1
            let M := runLen t emailTldChar u
            (List.range (M + 1)).any fun m =>
              decide (2 ≤ m) && boundaryAt t (u + m)))

/-- Exactly `k` digits at position `i`. -/
def digitsAt (t : List Char) (i k : Nat) : Bool :=
  (slice t i (i + k)).length = k && (slice t i (i + k)).all Char.isDigit

/-- `[-.]` separator at position `i`. -/
def sepAt (t : List Char) (i : Nat) : Bool :=
  charAt? t i == some '-' || charAt? t i == some '.'

/-- `re.search` of the phone pattern `\b\d{3}[-.]?\d{3}[-.]?\d{4}\b`. -/
def has_phone (t : List Char) : Bool :=
  let n := t.length
  (List.range (n + 1)).any fun i =>
    boundaryAt t i && digitsAt t i 3 &&
      ([1, 0].any fun s1 =>
        (decide (s1 = 0) || sepAt t (i + 3)) && digitsAt t (i + 3 + s1) 3 &&
          [1, 0].any fun s2 =>
            (decide (s2 = 0) || sepAt t (i + 6 + s1)) &&
              digitsAt t (i + 6 + s1 + s2) 4 &&
              boundaryAt t (i + 10 + s1 + s2))

/-- `ATSAnalyzer._score_contact_info` (max 10 points). -/
def score_contact_info (text : List Char) : ℚ × List Suggestion :=
  let text_lower := toLowerChars text
  let e : ℚ × List Suggestion :=
    if has_email text then (3, []) else (0, [Suggestion.includeEmail])
  let p : ℚ × List Suggestion :=
    if has_phone text then (2, []) else (0, [Suggestion.includePhone])
  let l : ℚ × List Suggestion :=
    if containsSub text_lower "linkedin".data then (3, [])
    else (0, [Suggestion.addLinkedin])
  let g : ℚ × List Suggestion :=
    if containsSub text_lower "github".data || containsSub text_lower "portfolio".data
    then (2, []) else (0, [Suggestion.addGithubPortfolio])
  (e.1 + p.1 + l.1 + g.1, e.2 ++ p.2 ++ l.2 ++ g.2)

/-- `ATSAnalyzer._get_grade_and_feedback`. -/
def get_grade_and_feedback (score : ℚ) : String × String :=
  if score ≥ 90 then ("A+", "Excellent! Your resume is highly optimized for ATS systems.")
  else if score ≥ 85 then ("A", "Great! Your resume should pass most ATS systems.")
  else if score ≥ 80 then ("A-", "Very good! Minor improvements will maximize your chances.")
  else if score ≥ 75 then ("B+", "Good! Some enhancements needed for optimal ATS performance.")
  else if score ≥ 70 then ("B", "Decent. Address key suggestions to improve ATS compatibility.")
  else if score ≥ 65 then ("B-", "Fair. Important improvements needed.")
  else if score ≥ 60 then ("C+", "Below average. Significant improvements required.")
  else if score ≥ 55 then ("C", "Poor. Major revisions needed for ATS success.")
  else ("D", "Critical issues detected. Complete restructuring recommended.")

/-- The six ATS sub-scores, keyed as in the `scores` dict. -/
structure ATSBreakdown where
  sections : ℚ
  keywords : ℚ
  action_verbs : ℚ
  metrics : ℚ
  formatting : ℚ
  contact : ℚ
deriving DecidableEq, Repr

/-- `ATSAnalyzer._get_max_score`. -/
def get_max_score (category : String) : ℚ :=
  if category = "sections" then 25
  else if category = "keywords" then 20
  else if category = "action_verbs" then 15
  else if category = "metrics" then 20
  else if category = "formatting" then 10
  else if category = "contact" then 10
  else 0

/-- The `(category, score)` items of the `scores` dict, in insertion
order. -/
def breakdown_items (b : ATSBreakdown) : List (String × ℚ) :=
  [("sections", b.sections), ("keywords", b.keywords),
   ("action_verbs", b.action_verbs), ("metrics", b.metrics),
   ("formatting", b.formatting), ("contact", b.contact)]

/-- A strength line of `_identify_strengths`, in tagged form. -/
inductive StrengthItem where
  | strong (category : String) (percentage : ℚ)
  | keepWorking
deriving DecidableEq, Repr

/-- `ATSAnalyzer._identify_strengths`. -/
def identify_strengths (b : ATSBreakdown) : List StrengthItem :=
  let strengths := (breakdown_items b).filterMap fun item =>
    let mx := get_max_score item.1
    let percentage : ℚ := if mx > 0 then item.2 / mx * 100 else 0
    if percentage ≥ 80 then some (StrengthItem.strong item.1 percentage) else none
  if strengths.isEmpty then [StrengthItem.keepWorking] else strengths

/-- A priority line of `_identify_priorities`, in tagged form. -/
inductive PriorityItem where
  | urgent (category : String) (percentage : ℚ)
  | important (category : String) (percentage : ℚ)
  | greatJob
deriving DecidableEq, Repr

/-- `ATSAnalyzer._identify_priorities`. -/
def identify_priorities (b : ATSBreakdown) : List PriorityItem :=
  let priorities := (breakdown_items b).filterMap fun item =>
    let mx := get_max_score item.1
    let percentage : ℚ := if mx > 0 then item.2 / mx * 100 else 0
    if percentage < 50 then some (PriorityItem.urgent item.1 percentage)
    else if percentage < 70 then some (PriorityItem.important item.1 percentage)
    else none
  if priorities.isEmpty then [PriorityItem.greatJob] else priorities.take 5

/-- The `ATSResult` returned by `analyze_ats_score`. -/
structure ATSResult where
  overall_score : ℚ
  grade : String
  feedback : String
  breakdown : ATSBreakdown
  suggestions : List Suggestion
  strengths : List StrengthItem
  priority_improvements : List PriorityItem
deriving DecidableEq, Repr

/-- `ATSAnalyzer.analyze_ats_score`: run the six sub-scorers, sum their
scores, round the overall score to two decimals, grade it, and keep the
top 15 suggestions. -/
def analyze_ats_score (text : List Char) (extracted_skills : List String)
    (sections : SectionsFound) (action_verbs : List VerbUsage)
    (metrics : List MetricRec) : ATSResult :=
  let sec := score_sections sections
  let kw := score_keywords text extracted_skills
  let verbs := score_action_verbs text action_verbs
  let met := score_metrics metrics
  let fmt := score_formatting text
  let con := score_contact_info text
  let breakdown : ATSBreakdown :=
    { sections := sec.1, keywords := kw.1, action_verbs := verbs.1
      metrics := met.1, formatting := fmt.1, contact := con.1 }
  let overall_score := sec.1 + kw.1 + verbs.1 + met.1 + fmt.1 + con.1
  let gf := get_grade_and_feedback overall_score
  { overall_score := round2 overall_score
    grade := gf.1
    feedback := gf.2
    breakdown := breakdown
    suggestions := (sec.2 ++ kw.2 ++ verbs.2 ++ met.2 ++ fmt.2 ++ con.2).take 15
    strengths := identify_strengths breakdown
    priority_improvements := identify_priorities breakdown }

/-- The `section_keywords` table of `ATSAnalyzer.__init__`. -/
def section_keywords_table : List (String × List String) :=
  [("contact", ["email", "phone", "linkedin", "github", "portfolio"]),
   ("summary", ["summary", "profile", "objective", "about"]),
   ("experience", ["experience", "work history", "employment", "professional experience"]),
   ("education", ["education", "academic", "degree", "university", "college"]),
   ("skills", ["skills", "technical skills", "core competencies", "expertise"]),
   ("projects", ["projects", "portfolio", "key projects"]),
   ("certifications", ["certifications", "licenses", "credentials"]),
   ("awards", ["awards", "honors", "achievements", "recognition"])]

/-- Whether any keyword of the named section occurs in the lowered text. -/
def section_present (text_lower : List Char) (name : String) : Bool :=
  match section_keywords_table.find? fun p => p.1 == name with
  | some p => p.2.any fun kw => containsSub text_lower kw.data
  | none => false

/-- `ATSAnalyzer.detect_sections`: keyword-presence test per section. -/
def detect_sections (text : List Char) : SectionsFound :=
  let tl := toLowerChars text
  { contact := section_present tl "contact"
    summary := section_present tl "summary"
    experience := section_present tl "experience"
    education := section_present tl "education"
    skills := section_present tl "skills"
    projects := section_present tl "projects"
    certifications := section_present tl "certifications"
    awards := section_present tl "awards" }

/-! ### JD matcher (jd_matcher.py) -/

/-- The stop-word list of `JDMatcher.__init__`. -/
def stop_words : List String :=
  ["the", "a", "an", "and", "or", "but", "in", "on", "at", "to", "for",
   "of", "with", "by", "from", "as", "is", "was", "are", "were", "be",
   "been", "being", "have", "has", "had", "do", "does", "did", "will",
   "would", "should", "could", "may", "might", "must", "can", "this",
   "that", "these", "those", "i", "you", "he", "she", "it", "we", "they",
   "who", "what", "where", "when", "why", "how", "all", "each", "every",
   "both", "few", "more", "most", "other", "some", "such", "than", "too",
   "very", "our", "your", "their"]

/-- `JDMatcher._extract_keywords`: lower-case, replace every character
that is neither a letter nor whitespace by a space, split on whitespace,
keep words longer than 3 characters that are not stop words. -/
def extract_keywords (text : List Char) : Finset String :=
  let cleaned := (toLowerChars text).map fun c =>
    if c.isAlpha || isSpaceChar c then c else ' '
  let ws := (splitWs cleaned).filter fun w =>
    decide (w.length > 3) && !(stop_words.contains (String.mk w))
  (ws.map String.mk).toFinset

/-- Try the label alternatives (in regex preference order) at position
`i` of `t`; on success return the capture bounds of `([^\n]+)` after the
matched label and `\s*`. -/
def label_capture (t : List Char) (alts : List (List Char)) (i : Nat) :
    Option (Nat × Nat) :=
  alts.findSome? fun alt =>
    if litAt t alt i then
      let p := i + alt.length
      let q := p + runLen t isSpaceChar p
      let R := runLen t (fun c => c != '\n') q
      if R ≥ 1 then some (q, q + R) else none
    else none

/-- All captures of a label pattern over the text (leftmost,
non-overlapping). -/
def label_fragments (t : List Char) (alts : List (List Char)) : List (List Char) :=
  (finditer (fun i => (label_capture t alts i).map fun r => r.2 - i) t.length).filterMap
    fun m => (label_capture t alts m.1).map fun r => slice t r.1 r.2

/-- The five label patterns of `_extract_jd_skills`, each expanded to its
literal alternatives in regex backtracking order. -/
def jd_label_patterns : List (List (List Char)) :=
  [["required skills:".data, "required skills".data,
    "required skill:".data, "required skill".data],
   ["qualifications:".data, "qualifications".data,
    "qualification:".data, "qualification".data],
   ["experience with:".data, "experience with".data,
    "experience in:".data, "experience in".data],
   ["proficient with:".data, "proficient with".data,
    "proficient in:".data, "proficient in".data],
   ["knowledge of:".data, "knowledge of".data]]

/-- The separator class `[,;â€¢\n]` used to split captured label lines
(the source file spells the bullet as the three characters of a
mis-decoded `•`). -/
def jd_sep_char (c : Char) : Bool :=
  c = ',' || c = ';' || c = 'â' || c = '€' || c = '¢' || c = '\n'

/-- `re.split` on a character class: split keeping empty pieces. -/
def splitOnPred (p : Char → Bool) : List Char → List (List Char)
  | [] => [[]]
  | c :: cs =>
    match splitOnPred p cs with
    | [] => [[c]]
    | h :: rest => if p c then [] :: h :: rest else (c :: h) :: rest

/-- The fixed technology keyword list of `_extract_jd_skills`. -/
def tech_keywords : List String :=
  ["python", "java", "javascript", "sql", "aws", "azure", "gcp",
   "docker", "kubernetes", "react", "angular", "node", "git",
   "machine learning", "data science", "analytics", "tableau",
   "power bi", "excel", "agile", "scrum", "jira"]

/-- `JDMatcher._extract_jd_skills`: label-pattern captures split on
separators (keeping stripped fragments of length in (2,50)), plus any
technology keyword occurring in the lowered JD text. -/
def extract_jd_skills (jd : List Char) : Finset String :=
  let jl := toLowerChars jd
  let fragments := jd_label_patterns.flatMap fun alts => label_fragments jl alts
  let kept := fragments.flatMap fun frag =>
    ((splitOnPred jd_sep_char frag).map stripChars).filter fun s =>
      decide (s.length > 2) && decide (s.length < 50)
  let tech := tech_keywords.filter fun k => containsSub jl k.data
  (kept.map String.mk).toFinset ∪ tech.toFinset

/-- `JDMatcher._calculate_match_score`: `matched/total × 100`, or 100
when the total set is empty. -/
def calculate_match_score (matched total : Finset String) : ℚ :=
  if total = ∅ then 100 else (matched.card : ℚ) / total.card * 100

/-- One entry of the section-alignment map (only JD-required categories
are recorded; the status string is determined by `present_in_resume`). -/
structure AlignmentEntry where
  req_type : String
  present_in_resume : Bool
deriving DecidableEq, Repr

/-- The fixed requirement-category table of `_analyze_section_alignment`. -/
def jd_requirements_table : List (String × List String) :=
  [("experience", ["years of experience", "experience in", "experience with"]),
   ("education", ["degree in", "bachelor", "master", "phd"]),
   ("certifications", ["certified", "certification", "license"]),
   ("leadership", ["lead", "manage", "supervise", "mentor"]),
   ("projects", ["project", "portfolio", "built", "developed"])]

/-- `JDMatcher._analyze_section_alignment`. -/
def analyze_section_alignment (resume jd : List Char) : List AlignmentEntry :=
  let jl := toLowerChars jd
  let rl := toLowerChars resume
  jd_requirements_table.filterMap fun p =>
    let jd_has := p.2.any fun kw => containsSub jl kw.data
    let resume_has := p.2.any fun kw => containsSub rl kw.data
    if jd_has then some ⟨p.1, resume_has⟩ else none

/-- Must-have indicator phrases. -/
def must_have_patterns : List String :=
  ["required", "must have", "must be", "essential", "mandatory", "critical", "minimum"]

/-- Nice-to-have indicator phrases. -/
def nice_patterns : List String :=
  ["preferred", "nice to have", "bonus", "plus", "desired", "advantageous", "beneficial"]

/-- Matcher for the context pattern `.{0,100}<skill>.{0,100}`: a greedy
up-to-100-character non-newline prefix, the literal skill, then a greedy
up-to-100-character non-newline suffix. -/
def window_matchLen (jl skill : List Char) (i : Nat) : Option Nat :=
  let maxk := min 100 (runLen jl (fun c => c != '\n') i)
  match (List.range (maxk + 1)).reverse.find? fun k => litAt jl skill (i + k) with
  | some k =>
    let e := i + k + skill.length
    some (k + skill.length + min 100 (runLen jl (fun c => c != '\n') e))
  | none => none

/-- The context windows of a skill's occurrences in the lowered JD text. -/
def skill_windows (jl skill : List Char) : List (List Char) :=
  (finditer (window_matchLen jl skill) jl.length).map fun m =>
    slice jl m.1 (m.1 + m.2)

/-- `JDMatcher._categorize_requirements`: a missing skill is must-have
iff some context window around an occurrence contains a must-have
indicator; every other missing skill lands in nice-to-have (the
source defaults unclassified skills to nice-to-have). -/
def categorize_requirements (jd : List Char) (missing : Finset String) :
    Finset String × Finset String :=
  let jl := toLowerChars jd
  let isMust : String → Bool := fun s =>
    (skill_windows jl s.data).any fun ctx =>
      must_have_patterns.any fun ind => containsSub ctx ind.data
  (missing.filter fun s => isMust s = true,
   missing.filter fun s => ¬ isMust s = true)

/-- The recommendation messages of `_generate_recommendations`, tagged. -/
inductive JdRecommendation where
  | excellentMatch
  | goodMatch
  | moderateMatch
  | lowMatch
  | developSkills (skills : List String)
  | addSectionHighlighting (req_type : String)
  | incorporateKeywords
  | tailorMirrorLanguage
deriving DecidableEq, Repr

/-- `JDMatcher._generate_recommendations` (Python iterates the missing
set directly for the top-5 examples; set iteration order is modelled as
sorted order). -/
def generate_recommendations (overall : ℚ) (skill_missing keyword_missing : Finset String)
    (alignment : List AlignmentEntry) : List JdRecommendation :=
  let first : JdRecommendation :=
    if overall ≥ 80 then .excellentMatch
    else if overall ≥ 60 then .goodMatch
    else if overall ≥ 40 then .moderateMatch
    else .lowMatch
  let skills : List JdRecommendation :=
    if skill_missing ≠ ∅ then
      [.developSkills ((skill_missing.sort (· ≤ ·)).take 5)]
    else []
  let align := alignment.filterMap fun e =>
    if !e.present_in_resume then some (JdRecommendation.addSectionHighlighting e.req_type)
    else none
  let kw : List JdRecommendation :=
    if keyword_missing ≠ ∅ then [.incorporateKeywords] else []
  (first :: (skills ++ align ++ kw ++ [.tailorMirrorLanguage])).take 8

/-- `JDMatcher._get_match_grade`. -/
def get_match_grade (score : ℚ) : String :=
  if score ≥ 90 then "A+ (Excellent Match)"
  else if score ≥ 80 then "A (Great Match)"
  else if score ≥ 70 then "B (Good Match)"
  else if score ≥ 60 then "C (Fair Match)"
  else if score ≥ 50 then "D (Weak Match)"
  else "F (Poor Match)"

/-- The `JDMatchResult` record (the `"x/y"` coverage strings are
modelled as numerator/denominator pairs; truncated displayed lists keep
their source caps). -/
structure JDMatchResult where
  match_score : ℚ
  grade : String
  keyword_match : ℚ
  skill_match : ℚ
  matched_skills : List String
  matched_keywords : List String
  missing_must_have : List String
  missing_nice_to_have : List String
  missing_keywords : List String
  section_alignment : List AlignmentEntry
  recommendations : List JdRecommendation
  coverage_skills : Nat × Nat
  coverage_keywords : Nat × Nat
deriving DecidableEq, Repr

/-- `JDMatcher.analyze_jd_match`: `none` models the "no JD" sentinel
(`match_score: None`), returned when the JD text is falsy or its
stripped length is under 30 characters. -/
def analyze_jd_match (resume jd : List Char) (extracted_skills : List String) :
    Option JDMatchResult :=
  if jd.isEmpty || decide ((stripChars jd).length < 30) then none
  else
    let resume_keywords := extract_keywords resume
    let jd_keywords := extract_keywords jd
    let jd_required_skills := extract_jd_skills jd
    let keyword_matches := resume_keywords ∩ jd_keywords
    let keyword_missing := jd_keywords \ resume_keywords
    let skill_matches := extracted_skills.toFinset ∩ jd_required_skills
    let skill_missing := jd_required_skills \ extracted_skills.toFinset
    let keyword_score := calculate_match_score keyword_matches jd_keywords
    let skill_score := calculate_match_score skill_matches jd_required_skills
    let overall := keyword_score * 0.6 + skill_score * 0.4
    let alignment := analyze_section_alignment resume jd
    let recs := generate_recommendations overall skill_missing keyword_missing alignment
    let mn := categorize_requirements jd skill_missing
    some
      { match_score := round2 overall
        grade := get_match_grade overall
        keyword_match := round2 keyword_score
        skill_match := round2 skill_score
        matched_skills := skill_matches.sort (· ≤ ·)
        matched_keywords := (keyword_matches.sort (· ≤ ·)).take 20
        missing_must_have := (mn.1.sort (· ≤ ·)).take 10
        missing_nice_to_have := (mn.2.sort (· ≤ ·)).take 10
        missing_keywords := (keyword_missing.sort (· ≤ ·)).take 15
        section_alignment := alignment
        recommendations := recs
        coverage_skills := (skill_matches.card, jd_required_skills.card)
        coverage_keywords := (keyword_matches.card, jd_keywords.card) }

/-- The tailored-tip messages of `generate_tailored_resume_tips`, tagged. -/
inductive TailoredTip where
  | cultureValue (keyword : String)
  | seniorRole
  | entryRole
deriving DecidableEq, Repr

/-- The culture keywords of `generate_tailored_resume_tips`, in source
order. -/
def culture_keywords : List String :=
  ["innovative", "collaborative", "fast-paced", "data-driven", "customer-focused"]

/-- `JDMatcher.generate_tailored_resume_tips`. -/
def generate_tailored_resume_tips (jd resume : List Char) : List TailoredTip :=
  let jl := toLowerChars jd
  let tips := culture_keywords.filterMap fun k =>
    if containsSub jl k.data then some (TailoredTip.cultureValue k) else none
  let seniority : List TailoredTip :=
    if ["senior", "lead", "principal"].any fun w => containsSub jl w.data then
      [.seniorRole]
    else if ["junior", "entry", "associate"].any fun w => containsSub jl w.data then
      [.entryRole]
    else []
  (tips ++ seniority).take 5

/-! ### Remaining extractors of skill_extractor.py

`extract_certifications`, `extract_years_of_experience`,
`extract_education` and `extract_metrics` are regex-driven; each regex
is embedded as an explicit scanner with the same backtracking order
(alternatives tried left to right, optional parts greedily). -/

/-- Parse a digit run as a natural number. -/
def parseNatDigits (l : List Char) : Nat :=
  l.foldl (fun a c => a * 10 + (c.toNat - 48)) 0

/-- A capture: start of the captured group, its length, and the end of
the whole match. -/
structure Capture where
  capStart : Nat
  capLen : Nat
  matchEnd : Nat
deriving DecidableEq, Repr

/-- Run `re.findall`-style collection for a single-group pattern: all
non-overlapping matches, returning the captured group slices. -/
def pattern_caps (t : List Char) (f : Nat → Option Capture) : List (List Char) :=
  (finditer (fun i => (f i).map fun r => r.matchEnd - i) t.length).filterMap
    fun m => (f m.1).map fun r => slice t r.capStart (r.capStart + r.capLen)

/-- Whole-match collection (`match.group(0)`) for a pattern whose
matcher returns the absolute end position of a match at `i`. -/
def pattern_matches (t : List Char) (f : Nat → Option Nat) : List (Nat × Nat) :=
  finditer (fun i => (f i).map fun e => e - i) t.length

/-- Certification pattern 1:
`\b(AWS|Azure|GCP|Google Cloud)\s+Certified\s+\w+`. -/
def cert_p1 (t : List Char) (i : Nat) : Option Capture :=
  if !boundaryAt t i then none
  else
    ["aws".data, "azure".data, "gcp".data, "google cloud".data].findSome? fun alt =>
      if litAtCI t alt i then
        let p := i + alt.length
        let w1 := runLen t isSpaceChar p
        if w1 = 0 then none
        else
          let q := p + w1
          if litAtCI t "certified".data q then
            let r := q + 9
            let w2 := runLen t isSpaceChar r
            if w2 = 0 then none
            else
              let s := r + w2
              let wl := runLen t isWordChar s
              if wl = 0 then none else some ⟨i, alt.length, s + wl⟩
          else none
      else none

/-- A `\b(alt1|alt2|...)` pattern: the whole match is the alternative. -/
def cert_alt_only (alts : List (List Char)) (t : List Char) (i : Nat) : Option Capture :=
  if !boundaryAt t i then none
  else
    alts.findSome? fun alt =>
      if litAtCI t alt i then some ⟨i, alt.length, i + alt.length⟩ else none

/-- Certification pattern 6: `\b(Certified|Certification)\s+\w+`
(`findall` returns only the group, i.e. the leading word). -/
def cert_p6 (t : List Char) (i : Nat) : Option Capture :=
  if !boundaryAt t i then none
  else
    ["certified".data, "certification".data].findSome? fun alt =>
      if litAtCI t alt i then
        let p := i + alt.length
        let w1 := runLen t isSpaceChar p
        if w1 = 0 then none
        else
          let s := p + w1
          let wl := runLen t isWordChar s
          if wl = 0 then none else some ⟨i, alt.length, s + wl⟩
      else none

/-- `SkillExtractor.extract_certifications`: collect the captured groups
of the six certification patterns, de-duplicate (Python builds a set)
and sort. -/
def extract_certifications (text : List Char) : List String :=
  let caps :=
    pattern_caps text (cert_p1 text) ++
    pattern_caps text (cert_alt_only
      ["pmp".data, "cissp".data, "ceh".data, "oscp".data,
       "security+".data, "network+".data, "a+".data] text) ++
    pattern_caps text (cert_alt_only
      ["cpa".data, "cfa".data, "cma".data, "shrm-cp".data,
       "shrm-scp".data, "phr".data, "sphr".data] text) ++
    pattern_caps text (cert_alt_only
      ["scrum master".data, "product owner".data, "safe".data, "prince2".data] text) ++
    pattern_caps text (cert_alt_only
      ["six sigma".data, "black belt".data, "green belt".data] text) ++
    pattern_caps text (cert_p6 text)
  ((caps.map String.mk).toFinset).sort (· ≤ ·)

/-- Common tail `(\d+)\+?\s*years?` of the experience patterns, starting
at `u`; returns the digit capture and the position after `years?`. -/
def years_digits_tail (t : List Char) (u : Nat) : Option (Nat × Nat × Nat) :=
  let d := runLen t Char.isDigit u
  if d = 0 then none
  else
    let p := u + d
    let plus := if charAt? t p == some '+' then 1 else 0
    let q := p + plus
    let w := runLen t isSpaceChar q
    if litAtCI t "year".data (q + w) then
      let y := q + w + 4
      let s := if litAtCI t "s".data y then 1 else 0
      some (u, d, y + s)
    else none

/-- Experience pattern 1: `(\d+)\+?\s*years?\s+(?:of\s+)?experience`. -/
def years_p1 (t : List Char) (i : Nat) : Option Capture :=
  match years_digits_tail t i with
  | none => none
  | some (u, d, afterYears) =>
    -- regex backtracking on the optional `s` of `years?`: with `s`
    -- first, then without; `years_digits_tail` already took the greedy
    -- choice, and giving back `s` cannot help since `\s+` then needs
    -- whitespace where the `s` stands
    let w2 := runLen t isSpaceChar afterYears
    if w2 = 0 then none
    else
      let z := afterYears + w2
      (if litAtCI t "of".data z then
        let w3 := runLen t isSpaceChar (z + 2)
        if w3 = 0 then none
        else if litAtCI t "experience".data (z + 2 + w3) then
          some ⟨u, d, z + 2 + w3 + 10⟩
        else none
      else none) <|>
      (if litAtCI t "experience".data z then some ⟨u, d, z + 10⟩ else none)

/-- Experience pattern 2: `experience\s+(?:of\s+)?(\d+)\+?\s*years?`. -/
def years_p2 (t : List Char) (i : Nat) : Option Capture :=
  if !litAtCI t "experience".data i then none
  else
    let p := i + 10
    let w1 := runLen t isSpaceChar p
    if w1 = 0 then none
    else
      let q := p + w1
      (if litAtCI t "of".data q then
        let w2 := runLen t isSpaceChar (q + 2)
        if w2 = 0 then none
        else (years_digits_tail t (q + 2 + w2)).map fun r => ⟨r.1, r.2.1, r.2.2⟩
      else none) <|>
      ((years_digits_tail t q).map fun r => ⟨r.1, r.2.1, r.2.2⟩)

/-- Experience pattern 3: `(\d+)\+?\s*years?\s+(?:working|in)`. -/
def years_p3 (t : List Char) (i : Nat) : Option Capture :=
  match years_digits_tail t i with
  | none => none
  | some (u, d, afterYears) =>
    let w2 := runLen t isSpaceChar afterYears
    if w2 = 0 then none
    else
      let z := afterYears + w2
      if litAtCI t "working".data z then some ⟨u, d, z + 7⟩
      else if litAtCI t "in".data z then some ⟨u, d, z + 2⟩
      else none

/-- The `{max, min, avg}` experience-years record. -/
structure ExperienceYears where
  max_years : Nat
  min_years : Nat
  avg_years : Nat
deriving DecidableEq, Repr

/-- `SkillExtractor.extract_years_of_experience`. -/
def extract_years_of_experience (text : List Char) : ExperienceYears :=
  let ys := (pattern_caps text (years_p1 text) ++ pattern_caps text (years_p2 text) ++
    pattern_caps text (years_p3 text)).map parseNatDigits
  match ys with
  | [] => ⟨0, 0, 0⟩
  | h :: tl =>
    { max_years := tl.foldl max h
      min_years := tl.foldl min h
      avg_years := (h + tl.sum) / (1 + tl.length) }

/-- Tail `in\s+([A-Za-z\s]+)` of the degree patterns at `z`: the final
`\s+` is greedy but gives one whitespace character back to the capture
class (which contains `\s`) when no letter follows. -/
def in_major (t : List Char) (z : Nat) : Option (Nat × Nat × Nat) :=
  if !litAtCI t "in".data z then none
  else
    let a := z + 2
    let wg := runLen t isSpaceChar a
    if wg = 0 then none
    else
      let g := a + wg
      let G := runLen t (fun c => c.isAlpha || isSpaceChar c) g
      if G ≥ 1 then some (g, G, g + G)
      else if wg ≥ 2 then some (g - 1, 1, g) else none

/-- Tail `(?:Science|Arts|...)?\s+in\s+(major)` at `q`, where `wBefore`
is the whitespace run just consumed (available for the empty-optional
backtracking split of the two adjacent `\s+`). -/
def mid_then_in (t : List Char) (midAlts : List (List Char)) (q wBefore : Nat) :
    Option (Nat × Nat × Nat) :=
  (midAlts.findSome? fun m =>
    if litAtCI t m q then
      let w3 := runLen t isSpaceChar (q + m.length)
      if w3 = 0 then none else in_major t (q + m.length + w3)
    else none) <|>
  (if wBefore ≥ 2 then in_major t q else none)

/-- Tail `\s+(?:of\s+)?(?:mid)?\s+in\s+(major)` after a degree word
ending at `p`. -/
def after_degree (t : List Char) (midAlts : List (List Char)) (p : Nat) :
    Option (Nat × Nat × Nat) :=
  let w1 := runLen t isSpaceChar p
  if w1 = 0 then none
  else
    let q := p + w1
    (if litAtCI t "of".data q then
      let w2 := runLen t isSpaceChar (q + 2)
      if w2 = 0 then none else mid_then_in t midAlts (q + 2 + w2) w2
    else none) <|>
    mid_then_in t midAlts q w1

/-- Two-group education capture: degree alternative and major. -/
structure EduCap where
  degLen : Nat
  majStart : Nat
  majLen : Nat
  matchEnd : Nat
deriving DecidableEq, Repr

/-- A degree pattern
`\b(deg1|deg2|...)\s+(?:of\s+)?(?:mid1|mid2)?\s+in\s+([A-Za-z\s]+)`. -/
def edu_pattern (t : List Char) (degAlts midAlts : List (List Char)) (i : Nat) :
    Option EduCap :=
  if !boundaryAt t i then none
  else
    degAlts.findSome? fun deg =>
      if litAtCI t deg i then
        (after_degree t midAlts (i + deg.length)).map fun r =>
          ⟨deg.length, r.1, r.2.1, r.2.2⟩
      else none

/-- The doctorate pattern `\b(Ph\.?D\.?|Doctorate)\s+in\s+([A-Za-z\s]+)`. -/
def edu_phd_pattern (t : List Char) (i : Nat) : Option EduCap :=
  if !boundaryAt t i then none
  else
    ["ph.d.".data, "ph.d".data, "phd.".data, "phd".data, "doctorate".data].findSome?
      fun deg =>
        if litAtCI t deg i then
          let p := i + deg.length
          let w1 := runLen t isSpaceChar p
          if w1 = 0 then none
          else
            (in_major t (p + w1)).map fun r => ⟨deg.length, r.1, r.2.1, r.2.2⟩
        else none

/-- Collect `{degree, major}` records for one education pattern. -/
def edu_collect (t : List Char) (f : Nat → Option EduCap) : List EducationRec :=
  (finditer (fun i => (f i).map fun r => r.matchEnd - i) t.length).filterMap fun m =>
    (f m.1).map fun r =>
      { degree := slice t m.1 (m.1 + r.degLen)
        major := stripChars (slice t r.majStart (r.majStart + r.majLen)) }

/-- `SkillExtractor.extract_education`: run the four degree patterns in
order and concatenate their records. -/
def extract_education (text : List Char) : List EducationRec :=
  edu_collect text (edu_pattern text
    ["bachelor".data, "bs".data, "ba".data, "b.s.".data, "b.a.".data]
    ["science".data, "arts".data]) ++
  edu_collect text (edu_pattern text
    ["master".data, "ms".data, "ma".data, "m.s.".data, "m.a.".data, "mba".data]
    ["science".data, "arts".data, "business".data]) ++
  edu_collect text (edu_phd_pattern text) ++
  edu_collect text (edu_pattern text
    ["associate".data, "as".data, "aa".data]
    ["science".data, "arts".data])

/-- Number with optional decimals and a percent sign:
`\d+(?:\.\d+)?%` at `u`; returns the end position. -/
def pct_number (t : List Char) (u : Nat) : Option Nat :=
  let d := runLen t Char.isDigit u
  if d = 0 then none
  else
    let p := u + d
    let frac :=
      if charAt? t p == some '.' then
        let f := runLen t Char.isDigit (p + 1)
        if f ≥ 1 then 1 + f else 0
      else 0
    let q := p + frac
    if charAt? t q == some '%' then some (q + 1) else none

/-- Greedy `(?:,\d{3})*` comma-group consumer starting at `p`. -/
def commaGroups (t : List Char) : Nat → Nat → Nat
  | 0, p => p
  | fuel + 1, p =>
    if charAt? t p == some ',' && digitsAt t (p + 1) 3 then
      commaGroups t fuel (p + 4)
    else p

/-- Metric pattern 1:
`(\d+(?:\.\d+)?%)\s+(?:increase|decrease|improvement|reduction|growth)`. -/
def metric_p1 (t : List Char) (i : Nat) : Option Nat :=
  match pct_number t i with
  | none => none
  | some q =>
    let w := runLen t isSpaceChar q
    if w = 0 then none
    else
      ["increase".data, "decrease".data, "improvement".data,
       "reduction".data, "growth".data].findSome? fun word =>
        if litAtCI t word (q + w) then some (q + w + word.length) else none

/-- Metric pattern 2:
`(?:increased|decreased|improved|reduced|grew)\s+(?:by\s+)?(\d+(?:\.\d+)?%)`. -/
def metric_p2 (t : List Char) (i : Nat) : Option Nat :=
  (["increased".data, "decreased".data, "improved".data,
    "reduced".data, "grew".data].findSome? fun word =>
      if litAtCI t word i then some (i + word.length) else none).bind fun p =>
    let w := runLen t isSpaceChar p
    if w = 0 then none
    else
      let q := p + w
      (if litAtCI t "by".data q then
        let w2 := runLen t isSpaceChar (q + 2)
        if w2 = 0 then none else pct_number t (q + 2 + w2)
      else none) <|> pct_number t q

/-- Metric pattern 3:
`\$(\d+(?:,\d{3})*(?:\.\d+)?)\s*(?:million|billion|thousand|M|B|K)?`. -/
def metric_p3 (t : List Char) (i : Nat) : Option Nat :=
  if charAt? t i == some '$' then
    let d := runLen t Char.isDigit (i + 1)
    if d = 0 then none
    else
      let p := commaGroups t t.length (i + 1 + d)
      let frac :=
        if charAt? t p == some '.' then
          let f := runLen t Char.isDigit (p + 1)
          if f ≥ 1 then 1 + f else 0
        else 0
      let q := p + frac
      let w := runLen t isSpaceChar q
      match ["million".data, "billion".data, "thousand".data,
        "m".data, "b".data, "k".data].findSome? fun unit =>
          if litAtCI t unit (q + w) then some (q + w + unit.length) else none with
      | some e => some e
      | none => some (q + w)
  else none

/-- Metric pattern 4:
`(\d+(?:,\d{3})*)\s+(?:users|customers|clients|projects|features|products)`. -/
def metric_p4 (t : List Char) (i : Nat) : Option Nat :=
  let d := runLen t Char.isDigit i
  if d = 0 then none
  else
    let p := commaGroups t t.length (i + d)
    let w := runLen t isSpaceChar p
    if w = 0 then none
    else
      ["users".data, "customers".data, "clients".data,
       "projects".data, "features".data, "products".data].findSome? fun word =>
        if litAtCI t word (p + w) then some (p + w + word.length) else none

/-- Metric pattern 5: `(?:from|to)\s+(\d+(?:,\d{3})*)`. -/
def metric_p5 (t : List Char) (i : Nat) : Option Nat :=
  (["from".data, "to".data].findSome? fun word =>
    if litAtCI t word i then some (i + word.length) else none).bind fun p =>
    let w := runLen t isSpaceChar p
    if w = 0 then none
    else
      let d := runLen t Char.isDigit (p + w)
      if d = 0 then none else some (commaGroups t t.length (p + w + d))

/-- `SkillExtractor.extract_metrics`: run the five metric patterns in
order, store each whole match with its ±100-character stripped context,
cap at 10 records. -/
def extract_metrics (text : List Char) : List MetricRec :=
  let collect : (Nat → Option Nat) → List MetricRec := fun f =>
    (pattern_matches text f).map fun m =>
      { metric := slice text m.1 (m.1 + m.2)
        context := stripChars (slice text (m.1 - 100) (m.1 + m.2 + 100)) }
  (collect (metric_p1 text) ++ collect (metric_p2 text) ++ collect (metric_p3 text) ++
    collect (metric_p4 text) ++ collect (metric_p5 text)).take 10

/-! ### Orchestration service (analysis_service.py) -/

/-- `ResumeAnalysisService._calculate_health_score`: ATS 40%, skills
25%, verbs 10%, metrics 10%, required-section completeness 15%, rounded
to two decimals. -/
def calculate_health_score (ats_score : ℚ) (skill_count verb_count metric_count : Nat)
    (sections : SectionsFound) : ℚ :=
  let ats_component := (ats_score / 100) * 40
  let skill_score := min ((skill_count : ℚ) / 15) 1 * 25
  let verb_score := min ((verb_count : ℚ) / 10) 1 * 10
  let metric_score := min ((metric_count : ℚ) / 5) 1 * 10
  let content_component := verb_score + metric_score
  let section_count := (required_sections.filter fun s => sections.get s).length
  let completeness := ((section_count : ℚ) / required_sections.length) * 15
  round2 (ats_component + skill_score + content_component + completeness)

/-- `ResumeAnalysisService._get_health_status`. -/
def get_health_status (score : ℚ) : String :=
  if score ≥ 85 then "Excellent 🌟"
  else if score ≥ 70 then "Good ✅"
  else if score ≥ 55 then "Fair ⚠️"
  else "Needs Improvement 🔧"

/-- The narrative insight lines of `RoleMatcher._generate_insights`,
tagged. -/
inductive RoleInsight where
  | excellentMatch (role : String)
  | goodMatch (role : String)
  | moderateMatch
  | lowMatch
  | focusTechnical
  | gainTools
  | considerCerts
  | strongTechnical
  | goodTools
deriving DecidableEq, Repr

/-- `RoleMatcher._generate_insights`. -/
def generate_role_insights (m : RoleMatch) : List RoleInsight :=
  let first : RoleInsight :=
    if m.overall_score ≥ 80 then .excellentMatch m.role
    else if m.overall_score ≥ 60 then .goodMatch m.role
    else if m.overall_score ≥ 40 then .moderateMatch
    else .lowMatch
  [first] ++
  (if m.breakdown.technical_skills < 50 then [RoleInsight.focusTechnical] else []) ++
  (if m.breakdown.tools < 50 then [RoleInsight.gainTools] else []) ++
  (if m.breakdown.certifications < 30 then [RoleInsight.considerCerts] else []) ++
  (if m.breakdown.technical_skills ≥ 70 then [RoleInsight.strongTechnical] else []) ++
  (if m.breakdown.tools ≥ 70 then [RoleInsight.goodTools] else [])

/-- `RoleMatcher.get_top_matches`: the first `top_n` ranked matches,
each with its generated insights attached. -/
def get_top_matches (all_matches : List RoleMatch) (top_n : Nat) :
    List (RoleMatch × List RoleInsight) :=
  (all_matches.take top_n).map fun m => (m, generate_role_insights m)

/-- `ResumeAnalysisService._group_matches_by_category`: group by
category in first-seen order, keep each category's top 3 by score. -/
def group_matches_by_category (role_matches : List RoleMatch) :
    List (String × List (String × ℚ × String)) :=
  let cats := (role_matches.map RoleMatch.category).dedup
  cats.map fun c =>
    (c, (List.insertionSort (fun a b => b.2.1 ≤ a.2.1)
      ((role_matches.filter fun m => m.category == c).map fun m =>
        (m.role, m.overall_score, m.confidence))).take 3)

/-- The merged overall recommendations of
`_generate_overall_recommendations`, tagged. -/
inductive OverallRecommendation where
  | atsPriority (p : PriorityItem)
  | matchRole (role : String) (critical : List String)
  | expandSkillSet
  | jdMustHaveGaps (skills : List String)
deriving DecidableEq, Repr

/-- `ResumeAnalysisService._generate_overall_recommendations` (note the
Python truthiness test `jd_analysis["match_score"] and ... < 70`: a
sentinel `None` score and a score of exactly 0 both skip the JD item). -/
def generate_overall_recommendations (ats : ATSResult)
    (role_matches : List (RoleMatch × List RoleInsight))
    (skill_analysis : SkillAnalysis)
    (jd : Option (Option JDMatchResult × List TailoredTip)) :
    List OverallRecommendation :=
  let r1 := if ats.overall_score < 70 then
      (ats.priority_improvements.take 2).map OverallRecommendation.atsPriority
    else []
  let r2 := match role_matches.head? with
    | some best =>
      if best.1.overall_score < 70 then
        [OverallRecommendation.matchRole best.1.role (best.1.missing_critical.take 3)]
      else []
    | none => []
  let r3 := if skill_analysis.total_unique_skills < 10 then
      [OverallRecommendation.expandSkillSet]
    else []
  let r4 := match jd with
    | some (some res, _) =>
      if res.match_score ≠ 0 ∧ res.match_score < 70 then
        if res.missing_must_have ≠ [] then
          [OverallRecommendation.jdMustHaveGaps (res.missing_must_have.take 3)]
        else []
      else []
    | _ => []
  (r1 ++ r2 ++ r3 ++ r4).take 10

/-- The priority actions of `_get_priority_actions`, tagged. -/
inductive PriorityAction where
  | atsOptimization (steps : List PriorityItem)
  | expandSkills (n : Nat)
  | tailorToJd (steps : List JdRecommendation)
deriving DecidableEq, Repr

/-- `ResumeAnalysisService._get_priority_actions`. -/
def get_priority_actions (ats : ATSResult) (skill_analysis : SkillAnalysis)
    (jd : Option (Option JDMatchResult × List TailoredTip)) : List PriorityAction :=
  let a1 := if ats.overall_score < 60 then
      [PriorityAction.atsOptimization (ats.priority_improvements.take 2)]
    else []
  let a2 := if skill_analysis.total_unique_skills < 8 then
      [PriorityAction.expandSkills (8 - skill_analysis.total_unique_skills)]
    else []
  let a3 := match jd with
    | some (some res, _) =>
      if res.match_score ≠ 0 then
        if res.match_score < 60 then
          [PriorityAction.tailorToJd (res.recommendations.take 2)]
        else []
      else []
    | _ => []
  a1 ++ a2 ++ a3

/-- The narrative insights of `ResumeAnalysisService._generate_insights`,
tagged. -/
inductive ServiceInsight where
  | atsCompatibility (grade : String) (impact : String) (feedback : String)
  | bestRoleFit (role : String) (confidence : String) (total_count : Nat × Nat)
  | skillPortfolio (total : Nat)
  | experienceLevel (years : Nat)
deriving DecidableEq, Repr

/-- `ResumeAnalysisService._generate_insights`. -/
def generate_service_insights (ats : ATSResult)
    (role_matches : List (RoleMatch × List RoleInsight))
    (skill_analysis : SkillAnalysis) (experience : ExperienceYears) :
    List ServiceInsight :=
  [ServiceInsight.atsCompatibility ats.grade
    (if ats.overall_score ≥ 75 then "HIGH" else "CRITICAL") ats.feedback] ++
  (match role_matches.head? with
    | some best => [ServiceInsight.bestRoleFit best.1.role best.1.confidence
        best.1.count_total]
    | none => []) ++
  [ServiceInsight.skillPortfolio skill_analysis.total_unique_skills] ++
  (if experience.max_years > 0 then [ServiceInsight.experienceLevel experience.max_years]
   else [])

/-- The `resume_health` section of the report. -/
structure ResumeHealth where
  overall_score : ℚ
  status : String
deriving DecidableEq, Repr

/-- The `skills` section of the report. -/
structure SkillsSection where
  extracted_skills : List String
  skill_details : List (String × SkillMention)
  total_skills : Nat
  high_confidence_skills : List String
  certifications : List String
deriving DecidableEq, Repr

/-- The `experience` section of the report. -/
structure ExperienceSection where
  years : ExperienceYears
  education : List EducationRec
deriving DecidableEq, Repr

/-- The `role_matching` section of the report. -/
structure RoleMatchingSection where
  top_matches : List (RoleMatch × List RoleInsight)
  all_categories : List (String × List (String × ℚ × String))
  best_fit_role : Option (RoleMatch × List RoleInsight)
deriving DecidableEq, Repr

/-- The `content_analysis` section of the report. -/
structure ContentAnalysis where
  action_verbs : List VerbUsage
  quantifiable_metrics : List MetricRec
  sections_detected : SectionsFound
  total_action_verbs : Nat
  total_metrics : Nat
deriving DecidableEq, Repr

/-- The `recommendations` section of the report. -/
structure RecommendationsSection where
  overall : List OverallRecommendation
  priority_actions : List PriorityAction
deriving DecidableEq, Repr

/-- The full `AnalysisReport`.  `job_description_match` is `none` when
no (non-empty) JD was supplied; when a JD was supplied, the inner
`Option JDMatchResult` is `none` for the "no JD" sentinel (under-30
characters) and the tailored tips are attached alongside, as the service
adds them to the returned dict. -/
structure AnalysisReport where
  resume_health : ResumeHealth
  ats_analysis : ATSResult
  skills : SkillsSection
  experience : ExperienceSection
  role_matching : RoleMatchingSection
  content_analysis : ContentAnalysis
  job_description_match : Option (Option JDMatchResult × List TailoredTip)
  recommendations : RecommendationsSection
  insights : List ServiceInsight
deriving DecidableEq, Repr

/-- `ResumeAnalysisService.analyze_resume`: the full pipeline, from
resume text (and optional JD text) to the aggregate report.  `db` is the
static role catalog consumed by both the skill extractor and the role
matcher. -/
def analyze_resume (db : List (String × RoleData)) (resume_text : List Char)
    (job_description : Option (List Char)) : AnalysisReport :=
  let all_skills := build_skill_database db
  let skill_analysis := extract_skills all_skills resume_text
  let certifications := extract_certifications resume_text
  let experience := extract_years_of_experience resume_text
  let education := extract_education resume_text
  let action_verbs := extract_action_verbs resume_text
  let metrics := extract_metrics resume_text
  let sections := detect_sections resume_text
  let ats_results := analyze_ats_score resume_text skill_analysis.skill_list sections
    action_verbs metrics
  let role_matches := match_roles db skill_analysis.skill_list skill_analysis.skills
    experience.max_years certifications education
  let top_roles := get_top_matches role_matches 10
  let jd_analysis : Option (Option JDMatchResult × List TailoredTip) :=
    match job_description with
    | some jd =>
      if jd.isEmpty then none
      else some (analyze_jd_match resume_text jd skill_analysis.skill_list,
        generate_tailored_resume_tips jd resume_text)
    | none => none
  let overall_recs := generate_overall_recommendations ats_results top_roles
    skill_analysis jd_analysis
  let health := calculate_health_score ats_results.overall_score
    skill_analysis.skill_list.length action_verbs.length metrics.length sections
  { resume_health := { overall_score := health, status := get_health_status health }
    ats_analysis := ats_results
    skills :=
      { extracted_skills := skill_analysis.skill_list
        skill_details := skill_analysis.skills
        total_skills := skill_analysis.total_unique_skills
        high_confidence_skills := skill_analysis.high_confidence_skills
        certifications := certifications }
    experience := { years := experience, education := education }
    role_matching :=
      { top_matches := top_roles.take 5
        all_categories := group_matches_by_category role_matches
        best_fit_role := top_roles.head? }
    content_analysis :=
      { action_verbs := action_verbs.take 15
        quantifiable_metrics := metrics
        sections_detected := sections
        total_action_verbs := action_verbs.length
        total_metrics := metrics.length }
    job_description_match := jd_analysis
    recommendations :=
      { overall := overall_recs
        priority_actions := get_priority_actions ats_results skill_analysis jd_analysis }
    insights := generate_service_insights ats_results top_roles skill_analysis experience }

/-- Non-overlapping occurrence count of a literal phrase in a text
(Python `str.count` / per-occurrence counting). -/
def countOccurrences (hay needle : List Char) : Nat :=
  (finditer (fun i => if litAt hay needle i then some needle.length else none)
    hay.length).length

/-- Whether a suggestion is a weak-phrase replacement suggestion. -/
def Suggestion.isWeakPhrase : Suggestion → Bool
  | .replaceWeakPhrase _ => true
  | _ => false

/-! ## Rounding lemmas -/

theorem bankRound_le (q : ℚ) : (bankRound q : ℚ) ≤ q + 1 / 2 := by
  unfold bankRound
  have h0 : (⌊q⌋ : ℚ) ≤ q := Int.floor_le q
  have h1 : q < (⌊q⌋ : ℚ) + 1 := Int.lt_floor_add_one q
  split_ifs with hf hg he <;> push_cast <;> linarith

theorem le_bankRound (q : ℚ) : q - 1 / 2 ≤ (bankRound q : ℚ) := by
  unfold bankRound
  have h0 : (⌊q⌋ : ℚ) ≤ q := Int.floor_le q
  have h1 : q < (⌊q⌋ : ℚ) + 1 := Int.lt_floor_add_one q
  split_ifs with hf hg he <;> push_cast <;> linarith

theorem round2_nonneg {q : ℚ} (h : 0 ≤ q) : 0 ≤ round2 q := by
  unfold round2
  have hb := le_bankRound (q * 100)
  have hr : (-1 : ℤ) < bankRound (q * 100) := by
    have : (-1 : ℚ) < (bankRound (q * 100) : ℚ) := by linarith
    exact_mod_cast this
  have : (0 : ℤ) ≤ bankRound (q * 100) := by omega
  have : (0 : ℚ) ≤ (bankRound (q * 100) : ℚ) := by exact_mod_cast this
  linarith

theorem round2_le_hundred {q : ℚ} (h : q ≤ 100) : round2 q ≤ 100 := by
  unfold round2
  have hb := bankRound_le (q * 100)
  have hr : bankRound (q * 100) < 10001 := by
    have : (bankRound (q * 100) : ℚ) < 10001 := by linarith
    exact_mod_cast this
  have : bankRound (q * 100) ≤ 10000 := by omega
  have : (bankRound (q * 100) : ℚ) ≤ 10000 := by exact_mod_cast this
  linarith

/-! ## Claim C3: role ranking is total and sorted -/

/-- Claim C3 (confirmed): for every catalog role list and every input
(extracted skill list, skill details, experience years, certifications,
education), `match_roles` returns exactly one `RoleMatch` record per
catalog role — exactly N records for N roles — and the returned list is
sorted by non-increasing overall score. -/
theorem c3_match_roles_total_and_sorted (roles : List (String × RoleData))
    (skills : List String) (details : List (String × SkillMention)) (years : Nat)
    (certs : List String) (edu : List EducationRec) :
    (match_roles roles skills details years certs edu).length = roles.length ∧
    (match_roles roles skills details years certs edu).Pairwise
      (fun a b => b.overall_score ≤ a.overall_score) := by
  haveI : IsTotal RoleMatch fun a b => b.overall_score ≤ a.overall_score :=
    ⟨fun a b => le_total _ _⟩
  haveI : IsTrans RoleMatch fun a b => b.overall_score ≤ a.overall_score :=
    ⟨fun _ _ _ hab hbc => le_trans hbc hab⟩
  constructor
  · unfold match_roles
    rw [(List.perm_insertionSort _ _).length_eq, List.length_map]
  · unfold match_roles
    exact List.sorted_insertionSort _ _

/-! ## Claim C6: synonym matching is symmetric -/

/-- Claim C6 (confirmed): `"js"` is listed in the synonym table as a
variant of the canonical skill `"javascript"`; a resume whose only
extracted token is `"js"` satisfies a role requirement of
`"javascript"` (via the second test of `_match_with_synonyms`), a
resume containing only `"javascript"` satisfies a requirement of
`"js"` (via the third test), and the extraction side normalizes the
surface form `"js"` to `"javascript"`. -/
theorem c6_synonym_symmetry :
    synonymsOf? "javascript" = some ["js", "javascript programming", "ecmascript"] ∧
    "javascript" ∈ match_with_synonyms {"javascript"} {"js"} ∧
    "js" ∈ match_with_synonyms {"js"} {"javascript"} ∧
    normalize_skill "js" = "javascript" := by
  refine ⟨rfl, ?_, ?_, ?_⟩ <;> decide

/-! ## Claim C9: the pipeline is deterministic -/

/-- Claim C9 (confirmed): the analysis pipeline is deterministic — the
whole pipeline is embedded as a pure function of the catalog, the resume
text and the optional JD text, with no source of randomness or time, so
two invocations of the entry point on identical inputs produce the
identical `AnalysisReport`. -/
theorem c9_analyze_resume_deterministic (db : List (String × RoleData))
    (resume_text : List Char) (job_description : Option (List Char)) :
    analyze_resume db resume_text job_description =
      analyze_resume db resume_text job_description := rfl

/-! ## Claim C10: matched sets never exceed requirements -/

/-- Claim C10 (confirmed): the matched set returned by synonym-aware
matching is a subset of the required set; hence for non-empty required
sets the coverage score is exactly `|matched| / |required|`, the
"matched exceeds required" bonus branch is never taken, and every
per-factor coverage score (coverage × 100) lies in [0, 100]. -/
theorem c10_coverage_bounds (required extracted : Finset String) :
    match_with_synonyms required extracted ⊆ required ∧
    ¬ (match_with_synonyms required extracted).card > required.card ∧
    (required ≠ ∅ →
      calculate_coverage_score (match_with_synonyms required extracted) required =
        ((match_with_synonyms required extracted).card : ℚ) / required.card) ∧
    0 ≤ calculate_coverage_score (match_with_synonyms required extracted) required * 100 ∧
    calculate_coverage_score (match_with_synonyms required extracted) required * 100 ≤ 100 := by
  have hsub : match_with_synonyms required extracted ⊆ required :=
    Finset.filter_subset _ _
  have hcard : (match_with_synonyms required extracted).card ≤ required.card :=
    Finset.card_le_card hsub
  refine ⟨hsub, by omega, ?_, ?_, ?_⟩
  · intro hne
    unfold calculate_coverage_score
    rw [if_neg hne, if_neg (by omega)]
  · unfold calculate_coverage_score
    split_ifs with h1 h2
    · norm_num
    · omega
    · positivity
  · unfold calculate_coverage_score
    split_ifs with h1 h2
    · norm_num
    · omega
    · have hpos : 0 < required.card :=
        Finset.card_pos.mpr (Finset.nonempty_iff_ne_empty.mpr h1)
      have hle : ((match_with_synonyms required extracted).card : ℚ) / required.card ≤ 1 := by
        rw [div_le_one (by exact_mod_cast hpos)]
        exact_mod_cast hcard
      linarith

/-- Witness for C10 at a concrete input: the required set
`{"javascript"}` is non-empty and with the extracted set `{"js"}` the
coverage score is 1 (scaled to 100). -/
theorem c10_coverage_bounds_witness :
    (match_with_synonyms {"javascript"} {"js"} ⊆ {"javascript"} ∧
      ({"javascript"} : Finset String) ≠ ∅ ∧
      calculate_coverage_score (match_with_synonyms {"javascript"} {"js"}) {"javascript"} =
        ((match_with_synonyms {"javascript"} {"js"}).card : ℚ) / ({"javascript"} : Finset String).card) := by
  have h := c10_coverage_bounds {"javascript"} {"js"}
  exact ⟨h.1, by decide, h.2.2.1 (by decide)⟩

/-! ## Claim C4: empty extracted skill list -/

/-- With an empty extracted set, no required skill passes the three-way
synonym test. -/
theorem synonym_hit_empty (req : String) : synonym_hit ∅ req = false := by
  unfold synonym_hit
  rw [Bool.or_eq_false_iff, Bool.or_eq_false_iff]
  refine ⟨⟨by simp, ?_⟩, by simp⟩
  unfold req_synonym_present
  cases h : synonymsOf? req with
  | none => rfl
  | some syns => simp

/-- With an empty extracted set, the matched set is empty. -/
theorem match_with_synonyms_empty (required : Finset String) :
    match_with_synonyms required ∅ = ∅ := by
  unfold match_with_synonyms
  apply Finset.filter_eq_empty_iff.mpr
  intro req _
  rw [synonym_hit_empty]
  simp

/-- `round2 0 = 0`. -/
theorem round2_zero : round2 0 = 0 := by
  unfold round2 bankRound
  norm_num

/-- Coverage of an empty matched set against a non-empty required set is
zero. -/
theorem coverage_empty_matched {required : Finset String} (h : required ≠ ∅) :
    calculate_coverage_score ∅ required = 0 := by
  unfold calculate_coverage_score
  rw [if_neg h, if_neg (by simp)]
  simp

/-- Claim C4 (confirmed): when the extracted skill list is empty, the
role matcher's technical-skill and tool coverage scores are 0 for every
role whose required skill / tool list is non-empty, and the ATS keyword
sub-score is 0 for every resume text. -/
theorem c4_zero_skills_zero_scores (role_name : String) (rd : RoleData)
    (details : List (String × SkillMention)) (years : Nat) (certs : List String)
    (edu : List EducationRec) (text : List Char)
    (hskills : rd.skills ≠ []) (htools : rd.tools ≠ []) :
    (calculate_match role_name rd [] details years certs edu).breakdown.technical_skills = 0 ∧
    (calculate_match role_name rd [] details years certs edu).breakdown.tools = 0 ∧
    (score_keywords text []).1 = 0 := by
  have hES : (([] : List String).map strLower).toFinset = (∅ : Finset String) := rfl
  have hRS : (rd.skills.map strLower).toFinset ≠ ∅ := by
    rw [Ne, List.toFinset_eq_empty_iff, List.map_eq_nil_iff]
    exact hskills
  have hRT : (rd.tools.map strLower).toFinset ≠ ∅ := by
    rw [Ne, List.toFinset_eq_empty_iff, List.map_eq_nil_iff]
    exact htools
  refine ⟨?_, ?_, ?_⟩
  · show round2 (calculate_coverage_score
      (match_with_synonyms ((rd.skills.map strLower).toFinset)
        ((([] : List String).map strLower).toFinset))
      ((rd.skills.map strLower).toFinset) * 100) = 0
    rw [hES, match_with_synonyms_empty, coverage_empty_matched hRS, zero_mul, round2_zero]
  · show round2 (calculate_coverage_score
      (match_with_synonyms ((rd.tools.map strLower).toFinset)
        ((([] : List String).map strLower).toFinset))
      ((rd.tools.map strLower).toFinset) * 100) = 0
    rw [hES, match_with_synonyms_empty, coverage_empty_matched hRT, zero_mul, round2_zero]
  · unfold score_keywords
    simp only [List.length_nil, Nat.cast_zero, zero_mul, zero_div]
    norm_num
    split_ifs <;> rfl

/-- Witness for C4 at a concrete input: a role requiring `python` and
`git`, and the resume text `"x"`. -/
theorem c4_zero_skills_zero_scores_witness :
    (⟨"Technology", ["python"], ["git"], [], [], []⟩ : RoleData).skills ≠ [] ∧
    (⟨"Technology", ["python"], ["git"], [], [], []⟩ : RoleData).tools ≠ [] ∧
    ((calculate_match "Software Engineer" ⟨"Technology", ["python"], ["git"], [], [], []⟩
        [] [] 0 [] []).breakdown.technical_skills = 0 ∧
      (calculate_match "Software Engineer" ⟨"Technology", ["python"], ["git"], [], [], []⟩
        [] [] 0 [] []).breakdown.tools = 0 ∧
      (score_keywords "x".data []).1 = 0) :=
  ⟨by decide, by decide,
    c4_zero_skills_zero_scores "Software Engineer"
      ⟨"Technology", ["python"], ["git"], [], [], []⟩ [] 0 [] [] "x".data
      (by decide) (by decide)⟩

/-! ## Claim C8: weak-phrase suggestions -/

/-- Claim C8 (corrected): the ATS action-verb sub-scorer emits exactly
one replacement suggestion per weak phrase that occurs in the text —
one per distinct phrase present, regardless of how many times it
occurs (the original claim said one per occurrence). -/
theorem c8_one_suggestion_per_weak_phrase (text : List Char) (verbs : List VerbUsage) :
    (score_action_verbs text verbs).2.filter Suggestion.isWeakPhrase =
      (weak_phrases.filter fun p => containsSub (toLowerChars text) p.data).map
        Suggestion.replaceWeakPhrase := by
  simp only [score_action_verbs]
  split_ifs <;>
    simp [List.filter_append, List.filter_map, Suggestion.isWeakPhrase, Function.comp_def]

/-- Counterexample for C8 as stated: a text with two occurrences of the
weak phrase `"responsible for"` yields a single replacement suggestion,
not one per occurrence. -/
theorem c8_counterexample :
    countOccurrences (toLowerChars "Responsible for x. Responsible for y.".data)
      "responsible for".data = 2 ∧
    ((score_action_verbs "Responsible for x. Responsible for y.".data []).2.filter
      Suggestion.isWeakPhrase).length = 1 ∧
    (1 : Nat) ≠ 2 := by
  refine ⟨?_, ?_, ?_⟩ <;> decide

/-! ## Claim C1: ATS sub-score bounds -/

/-- The sections sub-score never exceeds 25. -/
theorem score_sections_le (s : SectionsFound) : (score_sections s).1 ≤ 25 := by
  unfold score_sections
  have h1 : ((required_sections.filter fun x => s.get x).length : ℚ) ≤ 3 := by
    have h := List.length_filter_le (fun x => s.get x) required_sections
    have h3 : required_sections.length = 3 := rfl
    rw [h3] at h
    exact_mod_cast h
  have h2 : ((recommended_sections.filter fun x => s.get x).length : ℚ) ≤ 3 := by
    have h := List.length_filter_le (fun x => s.get x) recommended_sections
    have h3 : recommended_sections.length = 3 := rfl
    rw [h3] at h
    exact_mod_cast h
  have hr : (required_sections.length : ℚ) = 3 := by norm_num [required_sections]
  have hc : (recommended_sections.length : ℚ) = 3 := by norm_num [recommended_sections]
  rw [hr, hc]
  linarith

/-- The keywords sub-score never exceeds 20. -/
theorem score_keywords_le (t : List Char) (skills : List String) :
    (score_keywords t skills).1 ≤ 20 := by
  simp only [score_keywords]
  split_ifs <;> norm_num

/-- The action-verbs sub-score never exceeds 15. -/
theorem score_action_verbs_le (t : List Char) (verbs : List VerbUsage) :
    (score_action_verbs t verbs).1 ≤ 15 := by
  simp only [score_action_verbs]
  split_ifs <;> norm_num

/-- The metrics sub-score never exceeds 20. -/
theorem score_metrics_le (mets : List MetricRec) : (score_metrics mets).1 ≤ 20 := by
  simp only [score_metrics]
  split_ifs <;> norm_num

/-- The formatting sub-score never exceeds 10. -/
theorem score_formatting_le (t : List Char) : (score_formatting t).1 ≤ 10 := by
  simp only [score_formatting]
  split_ifs <;> norm_num

/-- The contact sub-score never exceeds 10. -/
theorem score_contact_info_le (t : List Char) : (score_contact_info t).1 ≤ 10 := by
  simp only [score_contact_info]
  split_ifs <;> norm_num

/-- Claim C1 (corrected): each of the six ATS sub-scores is bounded by
its documented maximum (sections 25, keywords 20, action verbs 15,
metrics 20, formatting 10, contact 10), the returned overall ATS score
is the unweighted sum of the six sub-scores rounded to two decimal
places (the original claim omitted the rounding), and the overall score
never exceeds 100. -/
theorem c1_ats_bounds (text : List Char) (skills : List String)
    (sections : SectionsFound) (verbs : List VerbUsage) (mets : List MetricRec) :
    (analyze_ats_score text skills sections verbs mets).breakdown.sections ≤ 25 ∧
    (analyze_ats_score text skills sections verbs mets).breakdown.keywords ≤ 20 ∧
    (analyze_ats_score text skills sections verbs mets).breakdown.action_verbs ≤ 15 ∧
    (analyze_ats_score text skills sections verbs mets).breakdown.metrics ≤ 20 ∧
    (analyze_ats_score text skills sections verbs mets).breakdown.formatting ≤ 10 ∧
    (analyze_ats_score text skills sections verbs mets).breakdown.contact ≤ 10 ∧
    (analyze_ats_score text skills sections verbs mets).overall_score =
      round2 ((analyze_ats_score text skills sections verbs mets).breakdown.sections +
        (analyze_ats_score text skills sections verbs mets).breakdown.keywords +
        (analyze_ats_score text skills sections verbs mets).breakdown.action_verbs +
        (analyze_ats_score text skills sections verbs mets).breakdown.metrics +
        (analyze_ats_score text skills sections verbs mets).breakdown.formatting +
        (analyze_ats_score text skills sections verbs mets).breakdown.contact) ∧
    (analyze_ats_score text skills sections verbs mets).overall_score ≤ 100 := by
  refine ⟨score_sections_le sections, score_keywords_le text skills,
    score_action_verbs_le text verbs, score_metrics_le mets,
    score_formatting_le text, score_contact_info_le text, rfl, ?_⟩
  show round2 ((score_sections sections).1 + (score_keywords text skills).1 +
    (score_action_verbs text verbs).1 + (score_metrics mets).1 +
    (score_formatting text).1 + (score_contact_info text).1) ≤ 100
  apply round2_le_hundred
  have h1 := score_sections_le sections
  have h2 := score_keywords_le text skills
  have h3 := score_action_verbs_le text verbs
  have h4 := score_metrics_le mets
  have h5 := score_formatting_le text
  have h6 := score_contact_info_le text
  linarith

/-- Counterexample for C1 as stated: with only a `summary` section
present (and everything else empty) the six sub-scores sum to 10/3,
while the returned overall score is the rounded 3.33 — the overall
score is not literally the unweighted sum. -/
theorem c1_counterexample :
    (analyze_ats_score [] [] ⟨false, true, false, false, false, false, false, false⟩
        [] []).breakdown.sections +
      (analyze_ats_score [] [] ⟨false, true, false, false, false, false, false, false⟩
        [] []).breakdown.keywords +
      (analyze_ats_score [] [] ⟨false, true, false, false, false, false, false, false⟩
        [] []).breakdown.action_verbs +
      (analyze_ats_score [] [] ⟨false, true, false, false, false, false, false, false⟩
        [] []).breakdown.metrics +
      (analyze_ats_score [] [] ⟨false, true, false, false, false, false, false, false⟩
        [] []).breakdown.formatting +
      (analyze_ats_score [] [] ⟨false, true, false, false, false, false, false, false⟩
        [] []).breakdown.contact = 10 / 3 ∧
    (analyze_ats_score [] [] ⟨false, true, false, false, false, false, false, false⟩
        [] []).overall_score = 333 / 100 ∧
    (333 : ℚ) / 100 ≠ 10 / 3 := by
  have hsec : (score_sections ⟨false, true, false, false, false, false, false, false⟩).1 =
      10 / 3 := by
    show (((required_sections.filter fun s =>
        (⟨false, true, false, false, false, false, false, false⟩ : SectionsFound).get s).length : ℚ) /
          required_sections.length) * 15 +
      (((recommended_sections.filter fun s =>
        (⟨false, true, false, false, false, false, false, false⟩ : SectionsFound).get s).length : ℚ) /
          recommended_sections.length) * 10 = 10 / 3
    rw [show (required_sections.filter fun s =>
        (⟨false, true, false, false, false, false, false, false⟩ : SectionsFound).get s) = []
      from rfl]
    rw [show (recommended_sections.filter fun s =>
        (⟨false, true, false, false, false, false, false, false⟩ : SectionsFound).get s) = ["summary"]
      from rfl]
    norm_num [required_sections, recommended_sections]
  have hkw : (score_keywords [] []).1 = 0 := by
    norm_num [score_keywords, splitWs, splitWsAux]
  have hverbs : (score_action_verbs [] []).1 = 0 := by
    norm_num [score_action_verbs]
  have hmet : (score_metrics []).1 = 0 := by
    norm_num [score_metrics, List.any_nil]
  have hfmt : (score_formatting []).1 = 0 := by
    norm_num [score_formatting, splitWs, splitWsAux, bullet_chars, List.any_cons,
      List.any_nil, List.contains]
  have hemail : has_email [] = false := by decide
  have hphone : has_phone [] = false := by decide
  have hcon : (score_contact_info []).1 = 0 := by
    norm_num [score_contact_info, hemail, hphone, toLowerChars, containsSub, List.range,
      List.range.loop, List.any_cons, List.any_nil, List.isPrefixOf]
  refine ⟨?_, ?_, by norm_num⟩
  · show (score_sections ⟨false, true, false, false, false, false, false, false⟩).1 +
      (score_keywords [] []).1 + (score_action_verbs [] []).1 + (score_metrics []).1 +
      (score_formatting []).1 + (score_contact_info []).1 = 10 / 3
    rw [hsec, hkw, hverbs, hmet, hfmt, hcon]
    norm_num
  · show round2 ((score_sections ⟨false, true, false, false, false, false, false, false⟩).1 +
      (score_keywords [] []).1 + (score_action_verbs [] []).1 + (score_metrics []).1 +
      (score_formatting []).1 + (score_contact_info []).1) = 333 / 100
    rw [hsec, hkw, hverbs, hmet, hfmt, hcon]
    have hfl : ⌊(10 / 3 + 0 + 0 + 0 + 0 + 0 : ℚ) * 100⌋ = 333 := by
      norm_num [Int.floor_eq_iff]
    unfold round2 bankRound
    rw [hfl]
    norm_num

/-! ## Claim C2: resume health score -/

/-- Claim C2 (corrected): the health score equals
`0.40×(ATS/100)×100 + 0.25×min(skill_count/15,1)×100 +
0.10×min(verb_count/10,1)×100 + 0.10×min(metric_count/5,1)×100 +
0.15×(required-sections-present/3)×100`, rounded to two decimal places
(the original claim omitted the rounding); and for every ATS score in
[0,100] and non-negative counts the health score lies in [0,100]. -/
theorem c2_health_score_formula (ats : ℚ) (skill_count verb_count metric_count : Nat)
    (sections : SectionsFound) (h0 : 0 ≤ ats) (h1 : ats ≤ 100) :
    calculate_health_score ats skill_count verb_count metric_count sections =
      round2 (0.40 * (ats / 100) * 100 +
        0.25 * min ((skill_count : ℚ) / 15) 1 * 100 +
        0.10 * min ((verb_count : ℚ) / 10) 1 * 100 +
        0.10 * min ((metric_count : ℚ) / 5) 1 * 100 +
        0.15 * (((required_sections.filter fun s => sections.get s).length : ℚ) / 3) * 100) ∧
    0 ≤ calculate_health_score ats skill_count verb_count metric_count sections ∧
    calculate_health_score ats skill_count verb_count metric_count sections ≤ 100 := by
  have hlen : ((required_sections.length : ℚ)) = 3 := by norm_num [required_sections]
  have hsc : ((required_sections.filter fun s => sections.get s).length : ℚ) ≤ 3 := by
    have h := List.length_filter_le (fun s => sections.get s) required_sections
    have h3 : required_sections.length = 3 := rfl
    rw [h3] at h
    exact_mod_cast h
  have hsc0 : (0 : ℚ) ≤ ((required_sections.filter fun s => sections.get s).length : ℚ) := by
    positivity
  have heq : calculate_health_score ats skill_count verb_count metric_count sections =
      round2 (0.40 * (ats / 100) * 100 +
        0.25 * min ((skill_count : ℚ) / 15) 1 * 100 +
        0.10 * min ((verb_count : ℚ) / 10) 1 * 100 +
        0.10 * min ((metric_count : ℚ) / 5) 1 * 100 +
        0.15 * (((required_sections.filter fun s => sections.get s).length : ℚ) / 3) * 100) := by
    unfold calculate_health_score
    rw [hlen]
    ring_nf
  have hargs_lo : (0 : ℚ) ≤ ats / 100 * 40 +
      min ((skill_count : ℚ) / 15) 1 * 25 + (min ((verb_count : ℚ) / 10) 1 * 10 +
      min ((metric_count : ℚ) / 5) 1 * 10) +
      ((required_sections.filter fun s => sections.get s).length : ℚ) / 3 * 15 := by
    have m1 : (0 : ℚ) ≤ min ((skill_count : ℚ) / 15) 1 := le_min (by positivity) (by norm_num)
    have m2 : (0 : ℚ) ≤ min ((verb_count : ℚ) / 10) 1 := le_min (by positivity) (by norm_num)
    have m3 : (0 : ℚ) ≤ min ((metric_count : ℚ) / 5) 1 := le_min (by positivity) (by norm_num)
    have : (0 : ℚ) ≤ ats / 100 * 40 := by positivity
    linarith
  have hargs_hi : ats / 100 * 40 +
      min ((skill_count : ℚ) / 15) 1 * 25 + (min ((verb_count : ℚ) / 10) 1 * 10 +
      min ((metric_count : ℚ) / 5) 1 * 10) +
      ((required_sections.filter fun s => sections.get s).length : ℚ) / 3 * 15 ≤ 100 := by
    have m1 : min ((skill_count : ℚ) / 15) 1 ≤ 1 := min_le_right _ _
    have m2 : min ((verb_count : ℚ) / 10) 1 ≤ 1 := min_le_right _ _
    have m3 : min ((metric_count : ℚ) / 5) 1 ≤ 1 := min_le_right _ _
    have : ats / 100 * 40 ≤ 40 := by linarith
    linarith
  refine ⟨heq, ?_, ?_⟩
  · show 0 ≤ round2 (ats / 100 * 40 +
      min ((skill_count : ℚ) / 15) 1 * 25 + (min ((verb_count : ℚ) / 10) 1 * 10 +
      min ((metric_count : ℚ) / 5) 1 * 10) +
      ((required_sections.filter fun s => sections.get s).length : ℚ) /
        required_sections.length * 15)
    rw [hlen]
    exact round2_nonneg hargs_lo
  · show round2 (ats / 100 * 40 +
      min ((skill_count : ℚ) / 15) 1 * 25 + (min ((verb_count : ℚ) / 10) 1 * 10 +
      min ((metric_count : ℚ) / 5) 1 * 10) +
      ((required_sections.filter fun s => sections.get s).length : ℚ) /
        required_sections.length * 15) ≤ 100
    rw [hlen]
    exact round2_le_hundred hargs_hi

/-- Witness for C2 at a concrete input: ATS score 50 with no skills,
verbs, metrics or sections gives health score 20. -/
theorem c2_health_score_formula_witness :
    (0 : ℚ) ≤ 50 ∧ (50 : ℚ) ≤ 100 ∧
    (calculate_health_score 50 0 0 0 ⟨false, false, false, false, false, false, false, false⟩ =
      round2 (0.40 * ((50 : ℚ) / 100) * 100 +
        0.25 * min (((0 : Nat) : ℚ) / 15) 1 * 100 +
        0.10 * min (((0 : Nat) : ℚ) / 10) 1 * 100 +
        0.10 * min (((0 : Nat) : ℚ) / 5) 1 * 100 +
        0.15 * (((required_sections.filter fun s =>
          (⟨false, false, false, false, false, false, false, false⟩ : SectionsFound).get s).length : ℚ) / 3) * 100) ∧
      0 ≤ calculate_health_score 50 0 0 0
        ⟨false, false, false, false, false, false, false, false⟩ ∧
      calculate_health_score 50 0 0 0
        ⟨false, false, false, false, false, false, false, false⟩ ≤ 100) :=
  ⟨by norm_num, by norm_num,
    c2_health_score_formula 50 0 0 0
      ⟨false, false, false, false, false, false, false, false⟩
      (by norm_num) (by norm_num)⟩

/-- Counterexample for C2 as stated: with ATS 0, one skill and nothing
else, the code returns the rounded 1.67 while the claimed formula gives
5/3 — the health score is not literally the stated sum. -/
theorem c2_counterexample :
    calculate_health_score 0 1 0 0 ⟨false, false, false, false, false, false, false, false⟩ =
      167 / 100 ∧
    0.40 * ((0 : ℚ) / 100) * 100 + 0.25 * min ((1 : ℚ) / 15) 1 * 100 +
      0.10 * min ((0 : ℚ) / 10) 1 * 100 + 0.10 * min ((0 : ℚ) / 5) 1 * 100 +
      0.15 * ((0 : ℚ) / 3) * 100 = 5 / 3 ∧
    (167 : ℚ) / 100 ≠ 5 / 3 := by
  have hmin1 : min ((1 : ℚ) / 15) 1 = 1 / 15 := min_eq_left (by norm_num)
  have hmin0a : min ((0 : ℚ) / 10) 1 = 0 := by norm_num
  have hmin0b : min ((0 : ℚ) / 5) 1 = 0 := by norm_num
  have hfilter : (required_sections.filter fun s =>
      (⟨false, false, false, false, false, false, false, false⟩ : SectionsFound).get s) = [] :=
    rfl
  refine ⟨?_, ?_, by norm_num⟩
  · show round2 ((0 : ℚ) / 100 * 40 +
      min (((1 : Nat) : ℚ) / 15) 1 * 25 + (min (((0 : Nat) : ℚ) / 10) 1 * 10 +
      min (((0 : Nat) : ℚ) / 5) 1 * 10) +
      (((required_sections.filter fun s =>
        (⟨false, false, false, false, false, false, false, false⟩ : SectionsFound).get s).length : ℚ) /
          required_sections.length) * 15) = 167 / 100
    rw [hfilter]
    have harg : ((0 : ℚ) / 100 * 40 +
        min (((1 : Nat) : ℚ) / 15) 1 * 25 + (min (((0 : Nat) : ℚ) / 10) 1 * 10 +
        min (((0 : Nat) : ℚ) / 5) 1 * 10) +
        ((([] : List String).length : ℚ) / required_sections.length) * 15) = 5 / 3 := by
      push_cast
      rw [hmin1, hmin0a, hmin0b]
      norm_num [required_sections]
    rw [harg]
    have hfl : ⌊(5 / 3 : ℚ) * 100⌋ = 166 := by norm_num [Int.floor_eq_iff]
    unfold round2 bankRound
    rw [hfl]
    norm_num
  · rw [hmin1, hmin0a, hmin0b]
    norm_num

/-! ## Claim C5: JD matching sentinel and score -/

/-- A component match score lies in [0, 100] whenever the matched set is
a subset of the total set (and is 100 for an empty total set). -/
theorem calculate_match_score_bounds (matched total : Finset String)
    (h : matched ⊆ total) :
    0 ≤ calculate_match_score matched total ∧ calculate_match_score matched total ≤ 100 := by
  unfold calculate_match_score
  split_ifs with h1
  · norm_num
  · have hpos : 0 < total.card :=
      Finset.card_pos.mpr (Finset.nonempty_iff_ne_empty.mpr h1)
    have hle : matched.card ≤ total.card := Finset.card_le_card h
    constructor
    · positivity
    · have hd : (matched.card : ℚ) / total.card ≤ 1 := by
        rw [div_le_one (by exact_mod_cast hpos)]
        exact_mod_cast hle
      linarith

/-- Claim C5 (corrected): `analyze_jd_match` returns the "no JD"
sentinel exactly when the trimmed JD text has 29 characters or fewer;
with 30+ trimmed characters it returns a match score in [0, 100] equal
to `0.6×keyword-score + 0.4×skill-score` — rounded to two decimal
places (the original claim omitted the rounding) — where each component
score is `matched/total × 100` and is 100 when the total set is empty
(as `calculate_match_score` defines). -/
theorem c5_jd_sentinel_and_score (resume jd : List Char) (skills : List String) :
    ((stripChars jd).length ≤ 29 → analyze_jd_match resume jd skills = none) ∧
    (30 ≤ (stripChars jd).length →
      ∃ r, analyze_jd_match resume jd skills = some r ∧
        r.match_score = round2
          (calculate_match_score (extract_keywords resume ∩ extract_keywords jd)
              (extract_keywords jd) * 0.6 +
            calculate_match_score (skills.toFinset ∩ extract_jd_skills jd)
              (extract_jd_skills jd) * 0.4) ∧
        0 ≤ r.match_score ∧ r.match_score ≤ 100) := by
  constructor
  · intro h
    unfold analyze_jd_match
    rw [if_pos]
    rw [Bool.or_eq_true, decide_eq_true_eq]
    right
    omega
  · intro h
    have hne : jd.isEmpty = false := by
      cases jd with
      | nil => simp [stripChars] at h
      | cons c cs => rfl
    unfold analyze_jd_match
    rw [if_neg (by rw [hne, Bool.false_or, decide_eq_true_eq]; omega)]
    refine ⟨_, rfl, rfl, ?_, ?_⟩
    · show 0 ≤ round2
        (calculate_match_score (extract_keywords resume ∩ extract_keywords jd)
            (extract_keywords jd) * 0.6 +
          calculate_match_score (skills.toFinset ∩ extract_jd_skills jd)
            (extract_jd_skills jd) * 0.4)
      have b1 := calculate_match_score_bounds
        (extract_keywords resume ∩ extract_keywords jd) (extract_keywords jd)
        Finset.inter_subset_right
      have b2 := calculate_match_score_bounds
        (skills.toFinset ∩ extract_jd_skills jd) (extract_jd_skills jd)
        Finset.inter_subset_right
      exact round2_nonneg (by linarith [b1.1, b2.1])
    · show round2
        (calculate_match_score (extract_keywords resume ∩ extract_keywords jd)
            (extract_keywords jd) * 0.6 +
          calculate_match_score (skills.toFinset ∩ extract_jd_skills jd)
            (extract_jd_skills jd) * 0.4) ≤ 100
      have b1 := calculate_match_score_bounds
        (extract_keywords resume ∩ extract_keywords jd) (extract_keywords jd)
        Finset.inter_subset_right
      have b2 := calculate_match_score_bounds
        (skills.toFinset ∩ extract_jd_skills jd) (extract_jd_skills jd)
        Finset.inter_subset_right
      exact round2_le_hundred (by linarith [b1.1, b1.2, b2.1, b2.2])

/-- Witness for C5 at concrete inputs: an 8-character JD hits the
sentinel, and a 48-character JD passes the guard and yields a rounded
score. -/
theorem c5_jd_sentinel_and_score_witness :
    ((stripChars "short jd".data).length ≤ 29 ∧
      analyze_jd_match "alpha".data "short jd".data [] = none) ∧
    30 ≤ (stripChars "alpha bravo mountain rivers yellow purple orange".data).length ∧
    (∃ r, analyze_jd_match "alpha".data
        "alpha bravo mountain rivers yellow purple orange".data [] = some r ∧
      r.match_score = round2
        (calculate_match_score
            (extract_keywords "alpha".data ∩
              extract_keywords "alpha bravo mountain rivers yellow purple orange".data)
            (extract_keywords "alpha bravo mountain rivers yellow purple orange".data) * 0.6 +
          calculate_match_score
            (([] : List String).toFinset ∩
              extract_jd_skills "alpha bravo mountain rivers yellow purple orange".data)
            (extract_jd_skills "alpha bravo mountain rivers yellow purple orange".data) * 0.4) ∧
      0 ≤ r.match_score ∧ r.match_score ≤ 100) :=
  ⟨⟨by decide,
      (c5_jd_sentinel_and_score "alpha".data "short jd".data []).1 (by decide)⟩,
    by decide,
    (c5_jd_sentinel_and_score "alpha".data
      "alpha bravo mountain rivers yellow purple orange".data []).2 (by decide)⟩

/-- Counterexample for C5 as stated: on a 7-keyword JD sharing one
keyword with the resume (and no JD skills), the weighted component
formula gives 340/7 ≈ 48.5714, but the returned match score is the
rounded 48.57 — the returned score is not literally the weighted sum. -/
theorem c5_counterexample :
    (analyze_jd_match "alpha".data
        "alpha bravo mountain rivers yellow purple orange".data []).map
      JDMatchResult.match_score = some (4857 / 100) ∧
    calculate_match_score
        (extract_keywords "alpha".data ∩
          extract_keywords "alpha bravo mountain rivers yellow purple orange".data)
        (extract_keywords "alpha bravo mountain rivers yellow purple orange".data) * 0.6 +
      calculate_match_score
        (([] : List String).toFinset ∩
          extract_jd_skills "alpha bravo mountain rivers yellow purple orange".data)
        (extract_jd_skills "alpha bravo mountain rivers yellow purple orange".data) * 0.4 =
      340 / 7 ∧
    (4857 : ℚ) / 100 ≠ 340 / 7 := by
  have hk : (extract_keywords "alpha".data ∩
      extract_keywords "alpha bravo mountain rivers yellow purple orange".data).card = 1 := by
    decide
  have hj : (extract_keywords "alpha bravo mountain rivers yellow purple orange".data).card
      = 7 := by decide
  have hs : extract_jd_skills "alpha bravo mountain rivers yellow purple orange".data
      = ∅ := by decide
  have hjne : extract_keywords "alpha bravo mountain rivers yellow purple orange".data ≠ ∅ := by
    intro hempty
    rw [hempty] at hj
    simp at hj
  have hkw : calculate_match_score
      (extract_keywords "alpha".data ∩
        extract_keywords "alpha bravo mountain rivers yellow purple orange".data)
      (extract_keywords "alpha bravo mountain rivers yellow purple orange".data) = 100 / 7 := by
    unfold calculate_match_score
    rw [if_neg hjne, hk, hj]
    norm_num
  have hsk : calculate_match_score
      (([] : List String).toFinset ∩
        extract_jd_skills "alpha bravo mountain rivers yellow purple orange".data)
      (extract_jd_skills "alpha bravo mountain rivers yellow purple orange".data) = 100 := by
    unfold calculate_match_score
    rw [if_pos hs]
  have harg : calculate_match_score
      (extract_keywords "alpha".data ∩
        extract_keywords "alpha bravo mountain rivers yellow purple orange".data)
      (extract_keywords "alpha bravo mountain rivers yellow purple orange".data) * 0.6 +
    calculate_match_score
      (([] : List String).toFinset ∩
        extract_jd_skills "alpha bravo mountain rivers yellow purple orange".data)
      (extract_jd_skills "alpha bravo mountain rivers yellow purple orange".data) * 0.4 =
      340 / 7 := by
    rw [hkw, hsk]
    norm_num
  refine ⟨?_, harg, by norm_num⟩
  unfold analyze_jd_match
  rw [if_neg (by decide)]
  show some (round2 _) = some ((4857 : ℚ) / 100)
  rw [harg]
  have hfl : ⌊(340 / 7 : ℚ) * 100⌋ = 4857 := by norm_num [Int.floor_eq_iff]
  unfold round2 bankRound
  rw [hfl]
  norm_num

/-! ## Claim C7: skill confidence values and ordering -/

/-- `record_mention` preserves the at-most-3-contexts invariant. -/
theorem record_mention_contexts_le {m : List (String × RawMention)} {skill : String}
    {ctx : List Char} (hm : ∀ e ∈ m, e.2.contexts.length ≤ 3) :
    ∀ e ∈ record_mention m skill ctx, e.2.contexts.length ≤ 3 := by
  induction m with
  | nil =>
    intro e he
    simp only [record_mention, List.mem_singleton] at he
    subst he
    simp
  | cons a rest ih =>
    obtain ⟨k, v⟩ := a
    intro e he
    simp only [record_mention] at he
    split_ifs at he with hk hc
    · rcases List.mem_cons.mp he with h | h
      · subst h
        simp only [List.length_append, List.length_singleton]
        omega
      · exact hm e (List.mem_cons_of_mem _ h)
    · rcases List.mem_cons.mp he with h | h
      · subst h
        exact hm (k, v) (List.mem_cons_self _ _)
      · exact hm e (List.mem_cons_of_mem _ h)
    · rcases List.mem_cons.mp he with h | h
      · subst h
        exact hm (k, v) (List.mem_cons_self _ _)
      · exact ih (fun e he => hm e (List.mem_cons_of_mem _ he)) e h

/-- Every accumulated skill entry stores at most 3 context snippets. -/
theorem found_mentions_contexts_le (all_skills : List String) (text : List Char) :
    ∀ e ∈ found_mentions all_skills text, e.2.contexts.length ≤ 3 := by
  unfold found_mentions
  generalize mention_events all_skills text = events
  suffices h : ∀ (evs : List (String × List Char)) (m : List (String × RawMention)),
      (∀ e ∈ m, e.2.contexts.length ≤ 3) →
      ∀ e ∈ evs.foldl (fun m ev => record_mention m ev.1 ev.2) m,
        e.2.contexts.length ≤ 3 by
    exact h events [] (by simp)
  intro evs
  induction evs with
  | nil =>
    intro m hm
    simpa using hm
  | cons ev rest ih =>
    intro m hm
    simp only [List.foldl_cons]
    exact ih _ (record_mention_contexts_le hm)

/-- The assigned confidence is never negative. -/
theorem confidence_of_nonneg (c : Nat) (ctxs : List (List Char)) :
    0 ≤ confidence_of c ctxs := by
  unfold confidence_of
  apply le_min _ (by norm_num)
  have hb : (0 : ℚ) ≤ min ((c : ℚ) * 0.2) 1 := le_min (by positivity) (by norm_num)
  split_ifs <;> linarith

/-- The assigned confidence never exceeds 1. -/
theorem confidence_of_le_one (c : Nat) (ctxs : List (List Char)) :
    confidence_of c ctxs ≤ 1 :=
  min_le_right _ _

/-- Claim C7 (confirmed): every skill returned by `extract_skills`
carries confidence `min(0.2 × count, 1.0)` plus a single `+0.3` boost
applied iff one of its stored context snippets (at most 3 of them)
contains a skills-section keyword, capped at 1.0 in total; hence every
confidence lies in [0, 1]; and the returned mapping is sorted by
descending (confidence, count). -/
theorem c7_confidence_formula_and_sorted (all_skills : List String) (text : List Char) :
    (∀ e ∈ (extract_skills all_skills text).skills,
      e.2.confidence = min (min ((e.2.count : ℚ) * 0.2) 1 +
        (if (e.2.contexts.any fun ctx => section_keywords_boost.any fun w =>
            containsSub (toLowerChars ctx) w.data) = true then (0.3 : ℚ) else 0)) 1 ∧
      0 ≤ e.2.confidence ∧ e.2.confidence ≤ 1 ∧ e.2.contexts.length ≤ 3) ∧
    List.Pairwise skill_order (extract_skills all_skills text).skills := by
  constructor
  · intro e he
    have he2 : e ∈ with_confidence (found_mentions all_skills text) :=
      (List.perm_insertionSort skill_order
        (with_confidence (found_mentions all_skills text))).mem_iff.mp he
    obtain ⟨x, hx, hxe⟩ := List.mem_map.mp he2
    subst hxe
    refine ⟨rfl, confidence_of_nonneg _ _, confidence_of_le_one _ _, ?_⟩
    exact found_mentions_contexts_le all_skills text x hx
  · exact List.sorted_insertionSort skill_order _

/-- Witness for C7 at a concrete input: extracting from `"js skills"`
with the skill universe `["js"]` yields the canonical skill
`"javascript"` with one mention, one stored context and confidence
`confidence_of 1 [context]` (= 0.2 + 0.3 boost = 0.5), satisfying the
formula and bounds. -/
theorem c7_confidence_formula_and_sorted_witness :
    (("javascript", (⟨1, ["js skills".data],
        confidence_of 1 ["js skills".data]⟩ : SkillMention)) ∈
      (extract_skills ["js"] "js skills".data).skills) ∧
    (confidence_of 1 ["js skills".data] = min (min (((1 : Nat) : ℚ) * 0.2) 1 +
        (if ((["js skills".data] : List (List Char)).any fun ctx =>
            section_keywords_boost.any fun w =>
              containsSub (toLowerChars ctx) w.data) = true then (0.3 : ℚ) else 0)) 1 ∧
      0 ≤ confidence_of 1 ["js skills".data] ∧
      confidence_of 1 ["js skills".data] ≤ 1 ∧
      (["js skills".data] : List (List Char)).length ≤ 3) :=
  have hmem : (("javascript", (⟨1, ["js skills".data],
      confidence_of 1 ["js skills".data]⟩ : SkillMention)) ∈
        (extract_skills ["js"] "js skills".data).skills) :=
    List.mem_cons_self _ _
  ⟨hmem,
    (c7_confidence_formula_and_sorted ["js"] "js skills".data).1 _ hmem⟩

end ResumeAnalyser
